import Mathlib

/-! RendererCompositorRD: GPU-context registry, binder and screen blit.

A shallow embedding of `servers/rendering/renderer_rd/renderer_compositor_rd.cpp`.

* C++ pointers are `Option Nat` (`none` is `nullptr`); `memnew` takes the next
  free address of an explicit allocation counter.
* The thread-local "current" overrides (`X::set_current`), the `RSG::` static
  globals, the compositor's own members and the context registry are fields of
  one explicit state record that every operation passes along.
* Collaborators that are not part of the file (scene-renderer accessors,
  device limits, the configured rendering method) are read from an
  environment record.
* `ERR_FAIL_*` macros return the given value; the diagnostic they print is not
  part of the state.
* `uint32_t` context indices and format ids are natural numbers (no arithmetic
  is done on them); `float` values are rationals, so the divisions of the blit
  are exact.
* The rendering device of the blit path is a log of the calls made on it plus
  the next resource id it hands out; what it answers to queries comes from an
  environment record.
-/

namespace RendererCompositorRD

/-! ## Pointers, handles and error codes -/

/-- A raw pointer: `none` is `nullptr`, `some a` the object at address `a`. -/
abbrev Ptr := Option Nat

/-- The values of `Error` this development meets: success, the one the registry
reports, and two a device call may answer with. -/
inductive Error where
  | OK
  | FAILED
  | ERR_INVALID_PARAMETER
  | ERR_CANT_CREATE
  deriving DecidableEq, Repr

/-- Dynamic type of a scene renderer object: which `memnew` created it. -/
inductive SceneTier where
  | RenderForwardMobile
  | RenderForwardClustered
  deriving DecidableEq, Repr

/-- A scene renderer object: its address together with its dynamic type. -/
structure SceneObj where
  addr : Nat
  tier : SceneTier
  deriving DecidableEq, Repr

/-- A `RendererSceneRenderRD *`. -/
abbrev ScenePtr := Option SceneObj

/-! ## HashMap

Godot's `HashMap<uint32_t, V>`: at most one entry per key, iterated in
insertion order. -/

/-- Entries of a hash map in insertion order, keys pairwise distinct. -/
structure HashMap (V : Type) where
  entries : List (Nat × V)
  keys_nodup : (entries.map Prod.fst).Nodup

namespace HashMap

variable {V : Type}

/-- The empty map. -/
def empty : HashMap V := ⟨[], List.nodup_nil⟩

/-- Lookup: `getptr` of the source, `none` standing for the null result. -/
def getptr (m : HashMap V) (k : Nat) : Option V := m.entries.lookup k

/-- Membership test: `has` of the source. -/
def has (m : HashMap V) (k : Nat) : Bool := (m.getptr k).isSome

/-- Keys in iteration order. -/
def keys (m : HashMap V) : List Nat := m.entries.map Prod.fst

/-- List-level insertion: overwrite the value of an existing key in place,
otherwise append a new entry at the end. -/
def insertEntries (k : Nat) (v : V) : List (Nat × V) → List (Nat × V)
  | [] => [(k, v)]
  | (k', v') :: rest =>
    if k' = k then (k, v) :: rest else (k', v') :: insertEntries k v rest

theorem keys_insertEntries (k : Nat) (v : V) (l : List (Nat × V)) :
    (insertEntries k v l).map Prod.fst =
      if k ∈ l.map Prod.fst then l.map Prod.fst else l.map Prod.fst ++ [k] := by
  induction l with
  | nil => simp [insertEntries]
  | cons hd tl ih =>
    obtain ⟨k', v'⟩ := hd
    by_cases h : k' = k
    · subst h; simp [insertEntries]
    · have h' : ¬ k = k' := fun e => h e.symm
      simp only [insertEntries, h, if_false, List.map_cons, ih, List.mem_cons, h', false_or]
      split <;> simp

theorem nodup_insertEntries (k : Nat) (v : V) (l : List (Nat × V))
    (h : (l.map Prod.fst).Nodup) : ((insertEntries k v l).map Prod.fst).Nodup := by
  rw [keys_insertEntries]
  split
  · exact h
  · rename_i hk
    rw [List.nodup_append]
    refine ⟨h, List.nodup_singleton k, ?_⟩
    intro a ha hb
    simp only [List.mem_singleton] at hb
    subst hb
    exact hk ha

/-- The assignment `m[k] = v` of the source. -/
def insert (m : HashMap V) (k : Nat) (v : V) : HashMap V :=
  ⟨insertEntries k v m.entries, nodup_insertEntries k v m.entries m.keys_nodup⟩

theorem ext_entries {m m' : HashMap V} (h : m.entries = m'.entries) : m = m' := by
  cases m; cases m'; cases h; rfl

instance [DecidableEq V] : DecidableEq (HashMap V) := fun m m' =>
  if h : m.entries = m'.entries then isTrue (ext_entries h)
  else isFalse (fun e => h (by rw [e]))

end HashMap

/-! ## Data model of the context registry and the global bindings -/

/-- One registered GPU context: the device and the subsystem instances it owns. -/
structure GPUContext where
  gpu_index : Nat
  device : Ptr
  uniform_set_cache : Ptr
  framebuffer_cache : Ptr
  utilities : Ptr
  texture_storage : Ptr
  material_storage : Ptr
  mesh_storage : Ptr
  light_storage : Ptr
  particles_storage : Ptr
  fog : Ptr
  canvas : Ptr
  scene : ScenePtr
  deriving DecidableEq, Repr

/-- A default-constructed `GPUContext ctx;`: every member null. -/
def GPUContext.default : GPUContext :=
  { gpu_index := 0, device := none, uniform_set_cache := none, framebuffer_cache := none,
    utilities := none, texture_storage := none, material_storage := none,
    mesh_storage := none, light_storage := none, particles_storage := none,
    fog := none, canvas := none, scene := none }

/-- The thread-local overrides written by `RenderingDevice::set_current_device`
and the `X::set_current` calls, one slot per class. -/
structure Current where
  device : Ptr
  utilities : Ptr
  texture_storage : Ptr
  material_storage : Ptr
  mesh_storage : Ptr
  light_storage : Ptr
  particles_storage : Ptr
  fog : Ptr
  canvas_render : Ptr
  scene_render_rd : ScenePtr
  scene_render : ScenePtr
  uniform_set_cache : Ptr
  framebuffer_cache : Ptr
  forward_id_storage : Ptr
  copy_effects : Ptr
  gi : Ptr
  scene_shader_forward_clustered : Ptr
  ss_effects : Ptr
  deriving DecidableEq, Repr

/-- The `RSG::` static globals the file assigns. -/
structure RSG where
  utilities : Ptr
  texture_storage : Ptr
  material_storage : Ptr
  mesh_storage : Ptr
  light_storage : Ptr
  particles_storage : Ptr
  fog : Ptr
  canvas_render : Ptr
  gi : Ptr
  deriving DecidableEq, Repr

/-- The compositor object (the members the registry and binder use) together
with the process-wide state it mutates. -/
structure State where
  /-- Primary context, owned directly by the compositor. -/
  uniform_set_cache : Ptr
  framebuffer_cache : Ptr
  utilities : Ptr
  texture_storage : Ptr
  material_storage : Ptr
  mesh_storage : Ptr
  light_storage : Ptr
  particles_storage : Ptr
  fog : Ptr
  canvas : Ptr
  scene : ScenePtr
  /-- Registry of secondary contexts. -/
  gpu_contexts : HashMap GPUContext
  /-- Thread-local overrides. -/
  current : Current
  /-- Static globals. -/
  rsg : RSG
  /-- Next free address handed out by `memnew`. -/
  heap_next : Nat
  deriving DecidableEq

/-- Collaborators outside the file, consumed through their public calls. -/
structure Env where
  /-- `OS::get_singleton()->get_current_rendering_method()`. -/
  rendering_method : String
  /-- `device->limit_get(RD::LIMIT_MAX_TEXTURES_PER_SHADER_STAGE)`, by device address. -/
  limit_max_textures_per_shader_stage : Nat → Nat
  /-- `scene->get_forward_id_storage()`. -/
  get_forward_id_storage : SceneObj → Ptr
  /-- `scene->get_copy_effects()`. -/
  get_copy_effects : SceneObj → Ptr
  /-- `scene->get_gi()`. -/
  get_gi : SceneObj → Ptr
  /-- `fwd->get_scene_shader()` on the pointer the `static_cast` to
  `RenderForwardClustered *` yields, whatever object it really points to. -/
  get_scene_shader : ScenePtr → Ptr
  /-- `fwd->get_ss_effects()` on the same cast pointer. -/
  get_ss_effects : ScenePtr → Ptr

/-! ## Primitive effects -/

/-- The `memnew` of a storage object or cache: a fresh non-null address. -/
def memnew (s : State) : Ptr × State :=
  (some s.heap_next, { s with heap_next := s.heap_next + 1 })

/-- The `memnew` of a scene renderer of the given class. -/
def memnew_scene (tier : SceneTier) (s : State) : ScenePtr × State :=
  (some ⟨s.heap_next, tier⟩, { s with heap_next := s.heap_next + 1 })

/-- Modelled from the spec: `RenderingDevice::get_current_device` is declared
outside the file; it reads the active-device slot that `set_current_device` writes. -/
def get_current_device (s : State) : Ptr := s.current.device

/-- Modelled from the spec: `RenderingDevice::set_current_device` is declared
outside the file; it writes the active-device slot. -/
def set_current_device (p : Ptr) (s : State) : State :=
  { s with current := { s.current with device := p } }

/-- Modelled from the spec: `RendererRD::Utilities::set_current` is declared outside the file; it
repoints that class's global accessor by writing its override slot. -/
def Utilities_set_current (p : Ptr) (s : State) : State :=
  { s with current := { s.current with utilities := p } }

/-- Modelled from the spec: `RendererRD::TextureStorage::set_current` is declared outside the file; it
repoints that class's global accessor by writing its override slot. -/
def TextureStorage_set_current (p : Ptr) (s : State) : State :=
  { s with current := { s.current with texture_storage := p } }

/-- Modelled from the spec: `RendererRD::MaterialStorage::set_current` is declared outside the file; it
repoints that class's global accessor by writing its override slot. -/
def MaterialStorage_set_current (p : Ptr) (s : State) : State :=
  { s with current := { s.current with material_storage := p } }

/-- Modelled from the spec: `RendererRD::MeshStorage::set_current` is declared outside the file; it
repoints that class's global accessor by writing its override slot. -/
def MeshStorage_set_current (p : Ptr) (s : State) : State :=
  { s with current := { s.current with mesh_storage := p } }

/-- Modelled from the spec: `RendererRD::LightStorage::set_current` is declared outside the file; it
repoints that class's global accessor by writing its override slot. -/
def LightStorage_set_current (p : Ptr) (s : State) : State :=
  { s with current := { s.current with light_storage := p } }

/-- Modelled from the spec: `RendererRD::ParticlesStorage::set_current` is declared outside the file; it
repoints that class's global accessor by writing its override slot. -/
def ParticlesStorage_set_current (p : Ptr) (s : State) : State :=
  { s with current := { s.current with particles_storage := p } }

/-- Modelled from the spec: `RendererRD::Fog::set_current` is declared outside the file; it
repoints that class's global accessor by writing its override slot. -/
def Fog_set_current (p : Ptr) (s : State) : State :=
  { s with current := { s.current with fog := p } }

/-- Modelled from the spec: `RendererCanvasRender::set_current` is declared outside the file; it
repoints that class's global accessor by writing its override slot. -/
def RendererCanvasRender_set_current (p : Ptr) (s : State) : State :=
  { s with current := { s.current with canvas_render := p } }

/-- Modelled from the spec: `RendererSceneRenderRD::set_current` is declared outside the file; it
repoints that class's global accessor by writing its override slot. -/
def RendererSceneRenderRD_set_current (p : ScenePtr) (s : State) : State :=
  { s with current := { s.current with scene_render_rd := p } }

/-- Modelled from the spec: `RendererSceneRender::set_current` is declared outside the file; it
repoints that class's global accessor by writing its override slot. -/
def RendererSceneRender_set_current (p : ScenePtr) (s : State) : State :=
  { s with current := { s.current with scene_render := p } }

/-- Modelled from the spec: `UniformSetCacheRD::set_current` is declared outside the file; it
repoints that class's global accessor by writing its override slot. -/
def UniformSetCacheRD_set_current (p : Ptr) (s : State) : State :=
  { s with current := { s.current with uniform_set_cache := p } }

/-- Modelled from the spec: `FramebufferCacheRD::set_current` is declared outside the file; it
repoints that class's global accessor by writing its override slot. -/
def FramebufferCacheRD_set_current (p : Ptr) (s : State) : State :=
  { s with current := { s.current with framebuffer_cache := p } }

/-- Modelled from the spec: `RendererRD::ForwardIDStorage::set_current` is declared outside the file; it
repoints that class's global accessor by writing its override slot. -/
def ForwardIDStorage_set_current (p : Ptr) (s : State) : State :=
  { s with current := { s.current with forward_id_storage := p } }

/-- Modelled from the spec: `RendererRD::CopyEffects::set_current` is declared outside the file; it
repoints that class's global accessor by writing its override slot. -/
def CopyEffects_set_current (p : Ptr) (s : State) : State :=
  { s with current := { s.current with copy_effects := p } }

/-- Modelled from the spec: `RendererRD::GI::set_current` is declared outside the file; it
repoints that class's global accessor by writing its override slot. -/
def GI_set_current (p : Ptr) (s : State) : State :=
  { s with current := { s.current with gi := p } }

/-- Modelled from the spec: `SceneShaderForwardClustered::set_current` is declared outside the file; it
repoints that class's global accessor by writing its override slot. -/
def SceneShaderForwardClustered_set_current (p : Ptr) (s : State) : State :=
  { s with current := { s.current with scene_shader_forward_clustered := p } }

/-- Modelled from the spec: `RendererRD::SSEffects::set_current` is declared outside the file; it
repoints that class's global accessor by writing its override slot. -/
def SSEffects_set_current (p : Ptr) (s : State) : State :=
  { s with current := { s.current with ss_effects := p } }


/-- The assignment `RSG::utilities = p`. -/
def RSG_set_utilities (p : Ptr) (s : State) : State :=
  { s with rsg := { s.rsg with utilities := p } }

/-- The assignment `RSG::texture_storage = p`. -/
def RSG_set_texture_storage (p : Ptr) (s : State) : State :=
  { s with rsg := { s.rsg with texture_storage := p } }

/-- The assignment `RSG::material_storage = p`. -/
def RSG_set_material_storage (p : Ptr) (s : State) : State :=
  { s with rsg := { s.rsg with material_storage := p } }

/-- The assignment `RSG::mesh_storage = p`. -/
def RSG_set_mesh_storage (p : Ptr) (s : State) : State :=
  { s with rsg := { s.rsg with mesh_storage := p } }

/-- The assignment `RSG::light_storage = p`. -/
def RSG_set_light_storage (p : Ptr) (s : State) : State :=
  { s with rsg := { s.rsg with light_storage := p } }

/-- The assignment `RSG::particles_storage = p`. -/
def RSG_set_particles_storage (p : Ptr) (s : State) : State :=
  { s with rsg := { s.rsg with particles_storage := p } }

/-- The assignment `RSG::fog = p`. -/
def RSG_set_fog (p : Ptr) (s : State) : State :=
  { s with rsg := { s.rsg with fog := p } }

/-- The assignment `RSG::canvas_render = p`. -/
def RSG_set_canvas_render (p : Ptr) (s : State) : State :=
  { s with rsg := { s.rsg with canvas_render := p } }

/-- The assignment `RSG::gi = p`. -/
def RSG_set_gi (p : Ptr) (s : State) : State :=
  { s with rsg := { s.rsg with gi := p } }

/-- The assignment `ctx.gpu_index = v`. -/
def GPUContext.set_gpu_index (v : Nat) (ctx : GPUContext) : GPUContext :=
  { ctx with gpu_index := v }

/-- The assignment `ctx.device = v`. -/
def GPUContext.set_device (v : Ptr) (ctx : GPUContext) : GPUContext :=
  { ctx with device := v }

/-- The assignment `ctx.uniform_set_cache = v`. -/
def GPUContext.set_uniform_set_cache (v : Ptr) (ctx : GPUContext) : GPUContext :=
  { ctx with uniform_set_cache := v }

/-- The assignment `ctx.framebuffer_cache = v`. -/
def GPUContext.set_framebuffer_cache (v : Ptr) (ctx : GPUContext) : GPUContext :=
  { ctx with framebuffer_cache := v }

/-- The assignment `ctx.utilities = v`. -/
def GPUContext.set_utilities (v : Ptr) (ctx : GPUContext) : GPUContext :=
  { ctx with utilities := v }

/-- The assignment `ctx.texture_storage = v`. -/
def GPUContext.set_texture_storage (v : Ptr) (ctx : GPUContext) : GPUContext :=
  { ctx with texture_storage := v }

/-- The assignment `ctx.material_storage = v`. -/
def GPUContext.set_material_storage (v : Ptr) (ctx : GPUContext) : GPUContext :=
  { ctx with material_storage := v }

/-- The assignment `ctx.mesh_storage = v`. -/
def GPUContext.set_mesh_storage (v : Ptr) (ctx : GPUContext) : GPUContext :=
  { ctx with mesh_storage := v }

/-- The assignment `ctx.light_storage = v`. -/
def GPUContext.set_light_storage (v : Ptr) (ctx : GPUContext) : GPUContext :=
  { ctx with light_storage := v }

/-- The assignment `ctx.particles_storage = v`. -/
def GPUContext.set_particles_storage (v : Ptr) (ctx : GPUContext) : GPUContext :=
  { ctx with particles_storage := v }

/-- The assignment `ctx.fog = v`. -/
def GPUContext.set_fog (v : Ptr) (ctx : GPUContext) : GPUContext :=
  { ctx with fog := v }

/-- The assignment `ctx.canvas = v`. -/
def GPUContext.set_canvas (v : Ptr) (ctx : GPUContext) : GPUContext :=
  { ctx with canvas := v }

/-- The assignment `ctx.scene = v`. -/
def GPUContext.set_scene (v : ScenePtr) (ctx : GPUContext) : GPUContext :=
  { ctx with scene := v }

/-- The assignment `gpu_contexts[k] = ctx`. -/
def gpu_contexts_assign (k : Nat) (ctx : GPUContext) (s : State) : State :=
  { s with gpu_contexts := s.gpu_contexts.insert k ctx }

/-! ## Registry and binder -/

/-- Restore the primary context: `RendererCompositorRD::unbind_gpu_context`. -/
def unbind_gpu_context (env : Env) (s : State) : State :=
  let s := set_current_device none s
  let s := Utilities_set_current none s
  let s := TextureStorage_set_current none s
  let s := MaterialStorage_set_current none s
  let s := MeshStorage_set_current none s
  let s := LightStorage_set_current none s
  let s := ParticlesStorage_set_current none s
  let s := Fog_set_current none s
  let s := RendererSceneRenderRD_set_current none s
  let s := RendererSceneRender_set_current none s
  let s := SceneShaderForwardClustered_set_current none s
  let s := UniformSetCacheRD_set_current none s
  let s := FramebufferCacheRD_set_current none s
  let s := ForwardIDStorage_set_current none s
  let s := CopyEffects_set_current none s
  let s := SSEffects_set_current none s
  let s := GI_set_current none s
  -- Restore RSG:: static globals to GPU 0's (primary) storage instances.
  let s := RSG_set_utilities s.utilities s
  let s := RSG_set_texture_storage s.texture_storage s
  let s := RSG_set_material_storage s.material_storage s
  let s := RSG_set_mesh_storage s.mesh_storage s
  let s := RSG_set_light_storage s.light_storage s
  let s := RSG_set_particles_storage s.particles_storage s
  let s := RSG_set_fog s.fog s
  let s := RSG_set_canvas_render s.canvas s
  let s := RendererCanvasRender_set_current none s
  match s.scene with
  | some scene => RSG_set_gi (env.get_gi scene) s
  | none => s

/-- Make a registered context the globally visible one:
`RendererCompositorRD::bind_gpu_context`. -/
def bind_gpu_context (env : Env) (s : State) (p_gpu_index : Nat) : Bool × State :=
  if p_gpu_index = 0 then
    (true, unbind_gpu_context env s)
  else
    match s.gpu_contexts.getptr p_gpu_index with
    | none => (false, s)
    | some ctx =>
      -- Set TLS singletons for code using Class::get_singleton().
      let s := set_current_device ctx.device s
      let s := Utilities_set_current ctx.utilities s
      let s := TextureStorage_set_current ctx.texture_storage s
      let s := MaterialStorage_set_current ctx.material_storage s
      let s := MeshStorage_set_current ctx.mesh_storage s
      let s := LightStorage_set_current ctx.light_storage s
      let s := ParticlesStorage_set_current ctx.particles_storage s
      let s := Fog_set_current ctx.fog s
      let s := RendererSceneRenderRD_set_current ctx.scene s
      let s := RendererSceneRender_set_current ctx.scene s
      let s := UniformSetCacheRD_set_current ctx.uniform_set_cache s
      let s := FramebufferCacheRD_set_current ctx.framebuffer_cache s
      let s :=
        match ctx.scene with
        | some scene =>
          let s := ForwardIDStorage_set_current (env.get_forward_id_storage scene) s
          let s := CopyEffects_set_current (env.get_copy_effects scene) s
          GI_set_current (env.get_gi scene) s
        | none => s
      let s :=
        if env.rendering_method = "forward_plus" then
          let fwd := ctx.scene
          let s := SceneShaderForwardClustered_set_current (env.get_scene_shader fwd) s
          SSEffects_set_current (env.get_ss_effects fwd) s
        else s
      -- Swap RSG:: static globals.
      let s := RSG_set_utilities ctx.utilities s
      let s := RSG_set_texture_storage ctx.texture_storage s
      let s := RSG_set_material_storage ctx.material_storage s
      let s := RSG_set_mesh_storage ctx.mesh_storage s
      let s := RSG_set_light_storage ctx.light_storage s
      let s := RSG_set_particles_storage ctx.particles_storage s
      let s := RSG_set_fog ctx.fog s
      let s := RSG_set_canvas_render ctx.canvas s
      let s := RendererCanvasRender_set_current ctx.canvas s
      let s :=
        match ctx.scene with
        | some scene => RSG_set_gi (env.get_gi scene) s
        | none => s
      (true, s)

/-- Create the context of a GPU on first use:
`RendererCompositorRD::ensure_gpu_context`. -/
def ensure_gpu_context (env : Env) (s : State) (p_gpu_index : Nat) (p_device : Ptr) :
    Error × State :=
  if p_gpu_index = 0 then (Error.ERR_INVALID_PARAMETER, s)
  else
    match p_device with
    | none => (Error.ERR_INVALID_PARAMETER, s)
    | some dev =>
      if s.gpu_contexts.has p_gpu_index then (Error.OK, s)
      else
        let ctx := GPUContext.default
        let ctx := ctx.set_gpu_index p_gpu_index
        let ctx := ctx.set_device p_device
        let prev_device := get_current_device s
        let s := set_current_device p_device s
        let a := memnew s
        let p := a.1
        let s := a.2
        let ctx := ctx.set_uniform_set_cache p
        let a := memnew s
        let p := a.1
        let s := a.2
        let ctx := ctx.set_framebuffer_cache p
        let a := memnew s
        let p := a.1
        let s := a.2
        let ctx := ctx.set_utilities p
        let a := memnew s
        let p := a.1
        let s := a.2
        let ctx := ctx.set_texture_storage p
        let a := memnew s
        let p := a.1
        let s := a.2
        let ctx := ctx.set_material_storage p
        let a := memnew s
        let p := a.1
        let s := a.2
        let ctx := ctx.set_mesh_storage p
        let a := memnew s
        let p := a.1
        let s := a.2
        let ctx := ctx.set_light_storage p
        let a := memnew s
        let p := a.1
        let s := a.2
        let ctx := ctx.set_particles_storage p
        let a := memnew s
        let p := a.1
        let s := a.2
        let ctx := ctx.set_fog p
        let s := Utilities_set_current ctx.utilities s
        let s := TextureStorage_set_current ctx.texture_storage s
        let s := MaterialStorage_set_current ctx.material_storage s
        let s := MeshStorage_set_current ctx.mesh_storage s
        let s := LightStorage_set_current ctx.light_storage s
        let s := ParticlesStorage_set_current ctx.particles_storage s
        let s := Fog_set_current ctx.fog s
        let s := UniformSetCacheRD_set_current ctx.uniform_set_cache s
        let s := FramebufferCacheRD_set_current ctx.framebuffer_cache s
        let a := memnew s
        let p := a.1
        let s := a.2
        let ctx := ctx.set_canvas p
        let s := RendererCanvasRender_set_current ctx.canvas s
        let rendering_method := env.rendering_method
        let textures_per_stage := env.limit_max_textures_per_shader_stage dev
        let a :=
          if rendering_method = "mobile" ∨ textures_per_stage < 48 then
            memnew_scene SceneTier.RenderForwardMobile s
          else
            memnew_scene SceneTier.RenderForwardClustered s
        let ctx := ctx.set_scene a.1
        let s := a.2
        let s := RendererSceneRenderRD_set_current ctx.scene s
        let s := Utilities_set_current none s
        let s := TextureStorage_set_current none s
        let s := MaterialStorage_set_current none s
        let s := MeshStorage_set_current none s
        let s := LightStorage_set_current none s
        let s := ParticlesStorage_set_current none s
        let s := Fog_set_current none s
        let s := RendererCanvasRender_set_current none s
        let s := RendererSceneRenderRD_set_current none s
        let s := UniformSetCacheRD_set_current none s
        let s := FramebufferCacheRD_set_current none s
        let s := set_current_device prev_device s
        let s := gpu_contexts_assign p_gpu_index ctx s
        (Error.OK, s)

/-- The lookup `RendererCompositorRD::get_gpu_context`. -/
def get_gpu_context (s : State) (p_gpu_index : Nat) : Option GPUContext :=
  s.gpu_contexts.getptr p_gpu_index

/-- The enumeration `RendererCompositorRD::get_gpu_context_indices`. -/
def get_gpu_context_indices (s : State) : List Nat :=
  s.gpu_contexts.entries.map Prod.fst

/-- The context a first `ensure_gpu_context(i, dev)` builds in state `s`. -/
def created_context (env : Env) (s : State) (i dev : Nat) : GPUContext :=
  { gpu_index := i, device := some dev,
    uniform_set_cache := some s.heap_next, framebuffer_cache := some (s.heap_next + 1),
    utilities := some (s.heap_next + 2), texture_storage := some (s.heap_next + 3),
    material_storage := some (s.heap_next + 4), mesh_storage := some (s.heap_next + 5),
    light_storage := some (s.heap_next + 6), particles_storage := some (s.heap_next + 7),
    fog := some (s.heap_next + 8), canvas := some (s.heap_next + 9),
    scene := some ⟨s.heap_next + 10,
      if env.rendering_method = "mobile" ∨ env.limit_max_textures_per_shader_stage dev < 48
      then SceneTier.RenderForwardMobile else SceneTier.RenderForwardClustered⟩ }

/-! ### A concrete environment and state for evaluation -/

/-- Sample environment: method "mobile", every device reports 64 textures per
stage, and the scene accessors hand out addresses derived from the scene's. -/
def sampleEnv : Env :=
  { rendering_method := "mobile",
    limit_max_textures_per_shader_stage := fun _ => 64,
    get_forward_id_storage := fun sc => some (1000 + sc.addr),
    get_copy_effects := fun sc => some (2000 + sc.addr),
    get_gi := fun sc => some (3000 + sc.addr),
    get_scene_shader := fun p => p.map (fun sc => 4000 + sc.addr),
    get_ss_effects := fun p => p.map (fun sc => 5000 + sc.addr) }

/-- The state the constructor leaves: primary context at addresses 1 to 11
(created in the constructor's order), no override set, empty registry, and the
`RSG::` globals pointing at the primary instances. -/
def initialState (env : Env) (tier : SceneTier) : State :=
  { uniform_set_cache := some 1, framebuffer_cache := some 2, utilities := some 3,
    texture_storage := some 4, material_storage := some 5, mesh_storage := some 6,
    light_storage := some 7, particles_storage := some 8, fog := some 9,
    canvas := some 10, scene := some ⟨11, tier⟩,
    gpu_contexts := HashMap.empty,
    current :=
      { device := none, utilities := none, texture_storage := none,
        material_storage := none, mesh_storage := none, light_storage := none,
        particles_storage := none, fog := none, canvas_render := none,
        scene_render_rd := none, scene_render := none, uniform_set_cache := none,
        framebuffer_cache := none, forward_id_storage := none, copy_effects := none,
        gi := none, scene_shader_forward_clustered := none, ss_effects := none },
    rsg :=
      { utilities := some 3, texture_storage := some 4, material_storage := some 5,
        mesh_storage := some 6, light_storage := some 7, particles_storage := some 8,
        fog := some 9, canvas_render := some 10, gi := env.get_gi ⟨11, tier⟩ },
    heap_next := 100 }

/-! ## Screen blit: data model -/

/-- A resource id of the rendering device; `0` is the null `RID`. -/
abbrev RID := Nat

/-- The test `rid.is_null()`. -/
def RID.is_null (r : RID) : Bool := r == 0

/-- A draw-list id; `RD::INVALID_ID` is `-1`. -/
abbrev DrawListID := Int

/-- The constant `RD::INVALID_ID`. -/
def INVALID_ID : Int := -1

/-- The blit modes, in the order `initialize` pushes their shader variants. -/
inductive BlitMode where
  | BLIT_MODE_NORMAL
  | BLIT_MODE_USE_LAYER
  | BLIT_MODE_LENS
  | BLIT_MODE_NORMAL_ALPHA
  deriving DecidableEq, Repr

/-- The integer value of a blit mode. -/
def BlitMode.toNat : BlitMode → Nat
  | .BLIT_MODE_NORMAL => 0
  | .BLIT_MODE_USE_LAYER => 1
  | .BLIT_MODE_LENS => 2
  | .BLIT_MODE_NORMAL_ALPHA => 3

/-- The constant `BLIT_MODE_MAX`. -/
def BLIT_MODE_MAX : Nat := 4

/-- Modelled from the spec: `BlitPipelines` is declared outside the file; it holds
exactly `BLIT_MODE_MAX` (4) pipeline handles, `pipelines[mode]`. -/
structure BlitPipelines where
  pipelines_0 : RID
  pipelines_1 : RID
  pipelines_2 : RID
  pipelines_3 : RID
  deriving DecidableEq, Repr

/-- The read `pipelines.pipelines[i]`. -/
def BlitPipelines.get (p : BlitPipelines) (i : Nat) : RID :=
  match i with
  | 0 => p.pipelines_0
  | 1 => p.pipelines_1
  | 2 => p.pipelines_2
  | _ => p.pipelines_3

/-- The write `pipelines.pipelines[i] = r`. -/
def BlitPipelines.set (p : BlitPipelines) (i : Nat) (r : RID) : BlitPipelines :=
  match i with
  | 0 => { p with pipelines_0 := r }
  | 1 => { p with pipelines_1 := r }
  | 2 => { p with pipelines_2 := r }
  | _ => { p with pipelines_3 := r }

/-- A default-constructed `BlitPipelines pipelines;`: four null handles. -/
def BlitPipelines.default : BlitPipelines := ⟨0, 0, 0, 0⟩

/-- Modelled from the spec: `RD::ColorSpace` is declared outside the file; the two
values the file names, and any other value by its number. -/
inductive ColorSpace where
  | COLOR_SPACE_REC709_LINEAR
  | COLOR_SPACE_REC709_NONLINEAR_SRGB
  | other (n : Nat)
  deriving DecidableEq, Repr

/-- A `Rect2`: position and size, real numbers taken as rationals. -/
structure Rect2 where
  x : ℚ
  y : ℚ
  width : ℚ
  height : ℚ
  deriving DecidableEq

/-- Modelled from the spec: `BlitToScreen` is declared outside the file; the
members the blit reads. -/
structure BlitToScreen where
  render_target : RID
  src_rect : Rect2
  dst_rect : Rect2
  multi_view_use_layer : Bool
  multi_view_layer : Nat
  lens_distortion_apply : Bool
  lens_distortion_eye_center_x : ℚ
  lens_distortion_eye_center_y : ℚ
  lens_distortion_k1 : ℚ
  lens_distortion_k2 : ℚ
  lens_distortion_upscale : ℚ
  lens_distortion_aspect_ratio : ℚ
  deriving DecidableEq

/-- Modelled from the spec: `BlitPushConstant` is declared outside the file; the
members the file assigns. -/
structure BlitPushConstant where
  src_rect : Rect2
  dst_rect : Rect2
  rotation_sin : ℚ
  rotation_cos : ℚ
  eye_center_x : ℚ
  eye_center_y : ℚ
  k1 : ℚ
  k2 : ℚ
  upscale : ℚ
  aspect_ratio : ℚ
  layer : Nat
  source_is_srgb : Bool
  use_debanding : Bool
  target_color_space : ColorSpace
  reference_multiplier : ℚ
  output_max_value : ℚ
  deriving DecidableEq

/-- The calls the blit path makes on the rendering device, as recorded. -/
inductive RDCommand where
  | screen_prepare_for_drawing (screen : Int)
  | render_pipeline_create (shader_variant : Nat) (format : Nat) (blend_enabled : Bool)
      (result : RID)
  | uniform_set_create (sampler : RID) (texture : RID) (shader_variant : Nat) (result : RID)
  | draw_list_begin_for_screen (screen : Int)
  | draw_list_bind_render_pipeline (draw_list : DrawListID) (pipeline : RID)
  | draw_list_bind_index_array (draw_list : DrawListID) (index_array : RID)
  | draw_list_bind_uniform_set (draw_list : DrawListID) (uniform_set : RID) (index : Nat)
  | draw_list_set_push_constant (draw_list : DrawListID) (data : BlitPushConstant)
  | draw_list_draw (draw_list : DrawListID) (use_indices : Bool)
  | draw_list_end
  deriving DecidableEq

/-- The `blit` member of the compositor. -/
structure Blit where
  pipelines_by_format : HashMap BlitPipelines
  index_buffer : RID
  array : RID
  sampler : RID
  push_constant : BlitPushConstant
  deriving DecidableEq

/-- The compositor members the blit path uses, and the rendering device it
drives: the calls recorded so far and the next id the device hands out. -/
structure BlitState where
  blit : Blit
  render_target_descriptors : HashMap RID
  rd_log : List RDCommand
  rd_next_rid : Nat
  deriving DecidableEq

/-- Answers of the device, the display driver and the texture storage that the
blit path queries. -/
structure BlitEnv where
  /-- `RD::screen_prepare_for_drawing(screen)`. -/
  screen_prepare_for_drawing : Int → Error
  /-- `RD::screen_get_framebuffer_format(screen)`. -/
  screen_get_framebuffer_format : Int → Nat
  /-- Id returned by `RD::draw_list_begin_for_screen(screen)`. -/
  draw_list_begin_for_screen : Int → DrawListID
  /-- `RD::screen_get_color_space(screen)`. -/
  screen_get_color_space : Int → ColorSpace
  /-- `window_get_hdr_output_reference_luminance(screen)`. -/
  window_get_hdr_output_reference_luminance : Int → ℚ
  /-- `window_get_hdr_output_linear_luminance_scale(screen)`. -/
  window_get_hdr_output_linear_luminance_scale : Int → ℚ
  /-- `window_get_output_max_linear_value(screen)`. -/
  window_get_output_max_linear_value : Int → ℚ
  /-- `RD::screen_get_width(screen)`. -/
  screen_get_width : Int → Int
  /-- `RD::screen_get_height(screen)`. -/
  screen_get_height : Int → Int
  /-- `RD::screen_get_pre_rotation_degrees(screen)`. -/
  screen_get_pre_rotation_degrees : Int → Int
  /-- `texture_storage->render_target_get_rd_texture(render_target)`. -/
  render_target_get_rd_texture : RID → RID
  /-- `texture_storage->render_target_is_using_hdr(render_target)`. -/
  render_target_is_using_hdr : RID → Bool
  /-- `texture_storage->render_target_is_using_debanding(render_target)`. -/
  render_target_is_using_debanding : RID → Bool
  /-- `RD::uniform_set_is_valid(uniform_set)`. -/
  uniform_set_is_valid : RID → Bool
  /-- `Math::cos(Math::deg_to_rad((float)degrees))`. -/
  cos_deg : Int → ℚ
  /-- `Math::sin(Math::deg_to_rad((float)degrees))`. -/
  sin_deg : Int → ℚ

/-! ## Screen blit: operations -/

/-- Record one call on the rendering device. -/
def rd_call (c : RDCommand) (s : BlitState) : BlitState :=
  { s with rd_log := s.rd_log ++ [c] }

/-- The call `RD::render_pipeline_create` for a blit shader variant: the device
hands out its next id. -/
def render_pipeline_create (shader_variant format : Nat) (blend_enabled : Bool)
    (s : BlitState) : RID × BlitState :=
  (s.rd_next_rid,
    { s with
      rd_log := s.rd_log ++
        [RDCommand.render_pipeline_create shader_variant format blend_enabled s.rd_next_rid],
      rd_next_rid := s.rd_next_rid + 1 })

/-- The call `RD::uniform_set_create` for one sampler-with-texture uniform at
binding 0: the device hands out its next id. -/
def uniform_set_create (sampler texture : RID) (shader_variant : Nat) (s : BlitState) :
    RID × BlitState :=
  (s.rd_next_rid,
    { s with
      rd_log := s.rd_log ++
        [RDCommand.uniform_set_create sampler texture shader_variant s.rd_next_rid],
      rd_next_rid := s.rd_next_rid + 1 })

/-- The assignment `blit.pipelines_by_format.insert(format, pipelines)`. -/
def pipelines_by_format_insert (format : Nat) (pipelines : BlitPipelines) (s : BlitState) :
    BlitState :=
  { s with blit := { s.blit with
      pipelines_by_format := s.blit.pipelines_by_format.insert format pipelines } }

/-- The assignment `render_target_descriptors.insert(rd_texture, uniform_set)`. -/
def render_target_descriptors_insert (rd_texture uniform_set : RID) (s : BlitState) :
    BlitState :=
  { s with render_target_descriptors := s.render_target_descriptors.insert rd_texture uniform_set }

/-- The assignment of the whole `blit.push_constant` block. -/
def set_push_constant (pc : BlitPushConstant) (s : BlitState) : BlitState :=
  { s with blit := { s.blit with push_constant := pc } }

/-- One round of the pipeline-creation loop of `_get_blit_pipelines_for_format`. -/
def create_blit_pipeline (format : Nat) (acc : BlitPipelines × BlitState) (i : Nat) :
    BlitPipelines × BlitState :=
  let c := render_pipeline_create i format (i == BlitMode.BLIT_MODE_NORMAL_ALPHA.toNat) acc.2
  (acc.1.set i c.1, c.2)

/-- Cached pipelines of a framebuffer format, created on first request:
`RendererCompositorRD::_get_blit_pipelines_for_format`. -/
def _get_blit_pipelines_for_format (s : BlitState) (format : Nat) :
    BlitPipelines × BlitState :=
  match s.blit.pipelines_by_format.getptr format with
  | some v => (v, s)
  | none =>
    let r := (List.range BLIT_MODE_MAX).foldl (create_blit_pipeline format)
      (BlitPipelines.default, s)
    (r.1, pipelines_by_format_insert format r.1 r.2)

/-- The value `RendererCompositorRD::_compute_reference_multiplier` returns. -/
def _compute_reference_multiplier (p_color_space : ColorSpace)
    (p_reference_luminance p_linear_luminance_scale : ℚ) : ℚ :=
  match p_color_space with
  | ColorSpace.COLOR_SPACE_REC709_LINEAR => p_reference_luminance / p_linear_luminance_scale
  | _ => 1

/-- The blit mode chosen for a target. -/
def blit_mode (t : BlitToScreen) : BlitMode :=
  if t.lens_distortion_apply then BlitMode.BLIT_MODE_LENS
  else if t.multi_view_use_layer then BlitMode.BLIT_MODE_USE_LAYER
  else BlitMode.BLIT_MODE_NORMAL

/-- The screen size used to normalise the destination rect: the screen's pixel
size, width and height swapped when the negated pre-rotation is not a multiple
of 180 degrees (C remainder, truncating). -/
def normalization_size (env : BlitEnv) (p_screen : Int) : ℚ × ℚ :=
  let screen_size_width : ℚ := (env.screen_get_width p_screen : ℚ)
  let screen_size_height : ℚ := (env.screen_get_height p_screen : ℚ)
  let screen_rotation_degrees : Int := - env.screen_get_pre_rotation_degrees p_screen
  if Int.tmod screen_rotation_degrees 180 ≠ 0 then
    (screen_size_height, screen_size_width)
  else
    (screen_size_width, screen_size_height)

/-- The push-constant block the loop body fills in for one target. -/
def push_constant_for (env : BlitEnv) (p_screen : Int) (color_space : ColorSpace)
    (reference_multiplier output_max_value : ℚ) (t : BlitToScreen) : BlitPushConstant :=
  let screen_rotation_degrees : Int := - env.screen_get_pre_rotation_degrees p_screen
  let screen_size := normalization_size env p_screen
  { rotation_cos := env.cos_deg screen_rotation_degrees,
    rotation_sin := env.sin_deg screen_rotation_degrees,
    src_rect := t.src_rect,
    dst_rect :=
      { x := t.dst_rect.x / screen_size.1,
        y := t.dst_rect.y / screen_size.2,
        width := t.dst_rect.width / screen_size.1,
        height := t.dst_rect.height / screen_size.2 },
    layer := t.multi_view_layer,
    eye_center_x := t.lens_distortion_eye_center_x,
    eye_center_y := t.lens_distortion_eye_center_y,
    k1 := t.lens_distortion_k1,
    k2 := t.lens_distortion_k2,
    upscale := t.lens_distortion_upscale,
    aspect_ratio := t.lens_distortion_aspect_ratio,
    source_is_srgb := !env.render_target_is_using_hdr t.render_target,
    use_debanding := env.render_target_is_using_debanding t.render_target,
    target_color_space := color_space,
    reference_multiplier := reference_multiplier,
    output_max_value := output_max_value }

/-- The descriptor lookup of the loop body: the cached uniform set of a texture
when present and still valid, otherwise a new one, stored in the cache. -/
def descriptor_for (env : BlitEnv) (rd_texture : RID) (s : BlitState) : RID × BlitState :=
  let create : RID × BlitState :=
    let c := uniform_set_create s.blit.sampler rd_texture BlitMode.BLIT_MODE_NORMAL.toNat s
    (c.1, render_target_descriptors_insert rd_texture c.1 c.2)
  match s.render_target_descriptors.getptr rd_texture with
  | none => create
  | some v => if env.uniform_set_is_valid v then (v, s) else create

/-- The body of the loop over the render targets. -/
def blit_render_target (env : BlitEnv) (p_screen : Int) (blit_pipelines : BlitPipelines)
    (draw_list : DrawListID) (color_space : ColorSpace)
    (reference_multiplier output_max_value : ℚ) (s : BlitState) (t : BlitToScreen) :
    BlitState :=
  let rd_texture := env.render_target_get_rd_texture t.render_target
  if rd_texture.is_null then s
  else
    let d := descriptor_for env rd_texture s
    let s := d.2
    let mode := blit_mode t
    let s := rd_call (.draw_list_bind_render_pipeline draw_list (blit_pipelines.get mode.toNat)) s
    let s := rd_call (.draw_list_bind_index_array draw_list s.blit.array) s
    let s := rd_call (.draw_list_bind_uniform_set draw_list d.1 0) s
    let s := set_push_constant
      (push_constant_for env p_screen color_space reference_multiplier output_max_value t) s
    let s := rd_call (.draw_list_set_push_constant draw_list s.blit.push_constant) s
    rd_call (.draw_list_draw draw_list true) s

/-- Composite render targets onto a screen:
`RendererCompositorRD::blit_render_targets_to_screen`; the list holds the first
`p_amount` elements of `p_render_targets`. -/
def blit_render_targets_to_screen (env : BlitEnv) (s : BlitState) (p_screen : Int)
    (p_render_targets : List BlitToScreen) : BlitState :=
  let err := env.screen_prepare_for_drawing p_screen
  let s := rd_call (.screen_prepare_for_drawing p_screen) s
  if err ≠ Error.OK then s
  else
    let r := _get_blit_pipelines_for_format s (env.screen_get_framebuffer_format p_screen)
    let blit_pipelines := r.1
    let s := r.2
    let draw_list := env.draw_list_begin_for_screen p_screen
    let s := rd_call (.draw_list_begin_for_screen p_screen) s
    if draw_list = INVALID_ID then s
    else
      let color_space := env.screen_get_color_space p_screen
      let reference_luminance := env.window_get_hdr_output_reference_luminance p_screen
      let linear_luminance_scale := env.window_get_hdr_output_linear_luminance_scale p_screen
      let output_max_value := env.window_get_output_max_linear_value p_screen
      let reference_multiplier :=
        _compute_reference_multiplier color_space reference_luminance linear_luminance_scale
      let s := p_render_targets.foldl
        (blit_render_target env p_screen blit_pipelines draw_list color_space
          reference_multiplier output_max_value) s
      rd_call RDCommand.draw_list_end s

/-! ## What is globally visible -/

/-- Modelled from the spec: the accessor `X::get_singleton()` is declared outside
the file; it resolves to the override when one is set, and to the primary
context's instance owned by the compositor when the override is cleared. -/
def resolve {α : Type} (override primary : Option α) : Option α :=
  match override with
  | some p => some p
  | none => primary

/-- Every override slot cleared. -/
def Current.cleared : Current :=
  { device := none, utilities := none, texture_storage := none,
    material_storage := none, mesh_storage := none, light_storage := none,
    particles_storage := none, fog := none, canvas_render := none,
    scene_render_rd := none, scene_render := none, uniform_set_cache := none,
    framebuffer_cache := none, forward_id_storage := none, copy_effects := none,
    gi := none, scene_shader_forward_clustered := none, ss_effects := none }

/-- The instances of one context as the global accessors show them: the active
device (`none` for the primary device, which has no override), the subsystem
accessors and the `RSG::` globals. -/
structure Visible where
  device : Ptr
  utilities : Ptr
  texture_storage : Ptr
  material_storage : Ptr
  mesh_storage : Ptr
  light_storage : Ptr
  particles_storage : Ptr
  fog : Ptr
  canvas_render : Ptr
  scene_render_rd : ScenePtr
  scene_render : ScenePtr
  uniform_set_cache : Ptr
  framebuffer_cache : Ptr
  rsg : RSG
  deriving DecidableEq, Repr

/-- What the global accessors of a state resolve to. -/
def visible (s : State) : Visible :=
  { device := s.current.device,
    utilities := resolve s.current.utilities s.utilities,
    texture_storage := resolve s.current.texture_storage s.texture_storage,
    material_storage := resolve s.current.material_storage s.material_storage,
    mesh_storage := resolve s.current.mesh_storage s.mesh_storage,
    light_storage := resolve s.current.light_storage s.light_storage,
    particles_storage := resolve s.current.particles_storage s.particles_storage,
    fog := resolve s.current.fog s.fog,
    canvas_render := resolve s.current.canvas_render s.canvas,
    scene_render_rd := resolve s.current.scene_render_rd s.scene,
    scene_render := resolve s.current.scene_render s.scene,
    uniform_set_cache := resolve s.current.uniform_set_cache s.uniform_set_cache,
    framebuffer_cache := resolve s.current.framebuffer_cache s.framebuffer_cache,
    rsg := s.rsg }

/-- The global-illumination handle of a scene renderer. -/
def scene_gi (env : Env) (scene : ScenePtr) : Ptr :=
  match scene with
  | some sc => env.get_gi sc
  | none => none

/-- The instances of the primary context. -/
def primary_view (env : Env) (s : State) : Visible :=
  { device := none,
    utilities := s.utilities, texture_storage := s.texture_storage,
    material_storage := s.material_storage, mesh_storage := s.mesh_storage,
    light_storage := s.light_storage, particles_storage := s.particles_storage,
    fog := s.fog, canvas_render := s.canvas,
    scene_render_rd := s.scene, scene_render := s.scene,
    uniform_set_cache := s.uniform_set_cache, framebuffer_cache := s.framebuffer_cache,
    rsg :=
      { utilities := s.utilities, texture_storage := s.texture_storage,
        material_storage := s.material_storage, mesh_storage := s.mesh_storage,
        light_storage := s.light_storage, particles_storage := s.particles_storage,
        fog := s.fog, canvas_render := s.canvas, gi := scene_gi env s.scene } }

/-- The instances of a registered context. -/
def context_view (env : Env) (ctx : GPUContext) : Visible :=
  { device := ctx.device,
    utilities := ctx.utilities, texture_storage := ctx.texture_storage,
    material_storage := ctx.material_storage, mesh_storage := ctx.mesh_storage,
    light_storage := ctx.light_storage, particles_storage := ctx.particles_storage,
    fog := ctx.fog, canvas_render := ctx.canvas,
    scene_render_rd := ctx.scene, scene_render := ctx.scene,
    uniform_set_cache := ctx.uniform_set_cache, framebuffer_cache := ctx.framebuffer_cache,
    rsg :=
      { utilities := ctx.utilities, texture_storage := ctx.texture_storage,
        material_storage := ctx.material_storage, mesh_storage := ctx.mesh_storage,
        light_storage := ctx.light_storage, particles_storage := ctx.particles_storage,
        fog := ctx.fog, canvas_render := ctx.canvas, gi := scene_gi env ctx.scene } }

/-- Exactly one context is globally visible: everything resolves to the primary
context, or everything resolves to one registered context. -/
def one_context_visible (env : Env) (s : State) : Prop :=
  visible s = primary_view env s ∨
    ∃ e ∈ s.gpu_contexts.entries, visible s = context_view env e.2

instance (env : Env) (s : State) : Decidable (one_context_visible env s) := by
  unfold one_context_visible
  infer_instance

/-- A call of the registry and binder interface. -/
inductive Call where
  | ensure (p_gpu_index : Nat) (p_device : Ptr)
  | bind (p_gpu_index : Nat)
  | unbind
  deriving DecidableEq, Repr

/-- The state after one call. -/
def step (env : Env) (s : State) : Call → State
  | .ensure i d => (ensure_gpu_context env s i d).2
  | .bind i => (bind_gpu_context env s i).2
  | .unbind => unbind_gpu_context env s

/-- The state after a finite sequence of calls. -/
def run (env : Env) (s : State) (calls : List Call) : State :=
  calls.foldl (step env) s

/-- Sample state: context 1 registered on device 50, nothing bound. -/
def sampleRegistered : State :=
  run sampleEnv (initialState sampleEnv SceneTier.RenderForwardMobile) [.ensure 1 (some 50)]

/-- Sample state: context 1 registered on device 50 and bound. -/
def sampleBound : State :=
  run sampleEnv (initialState sampleEnv SceneTier.RenderForwardMobile)
    [.ensure 1 (some 50), .bind 1]

/-! ## Well-formed states and guarded call sequences -/

/-- Every subsystem pointer of a context is set. -/
def GPUContext.complete (ctx : GPUContext) : Prop :=
  ctx.uniform_set_cache ≠ none ∧ ctx.framebuffer_cache ≠ none ∧ ctx.utilities ≠ none ∧
  ctx.texture_storage ≠ none ∧ ctx.material_storage ≠ none ∧ ctx.mesh_storage ≠ none ∧
  ctx.light_storage ≠ none ∧ ctx.particles_storage ≠ none ∧ ctx.fog ≠ none ∧
  ctx.canvas ≠ none ∧ ctx.scene ≠ none

/-- In a sequence of calls, every `ensure_gpu_context` is issued in a state where
the primary context is the visible one. -/
def ensure_only_from_primary (env : Env) : State → List Call → Prop
  | _, [] => True
  | s, c :: cs =>
    (match c with
      | .ensure _ _ => visible s = primary_view env s
      | _ => True) ∧
    ensure_only_from_primary env (step env s c) cs

/-- The compositor has a scene renderer and every registered context is complete. -/
def well_formed (s : State) : Prop :=
  s.scene ≠ none ∧ ∀ e ∈ s.gpu_contexts.entries, e.2.complete

/-! ## Projections of the device log -/

/-- Number of `draw_list_draw` calls in a log. -/
def draw_count (log : List RDCommand) : Nat :=
  log.countP (fun c => match c with
    | .draw_list_draw _ _ => true
    | _ => false)

/-- Number of `draw_list_begin_for_screen` calls in a log. -/
def draw_list_begin_count (log : List RDCommand) : Nat :=
  log.countP (fun c => match c with
    | .draw_list_begin_for_screen _ => true
    | _ => false)

/-- Number of `render_pipeline_create` calls in a log. -/
def pipeline_create_count (log : List RDCommand) : Nat :=
  log.countP (fun c => match c with
    | .render_pipeline_create _ _ _ _ => true
    | _ => false)

/-- The push-constant uploads and draws of a log, in order. -/
def draw_trace (log : List RDCommand) : List RDCommand :=
  log.filter (fun c => match c with
    | .draw_list_set_push_constant _ _ => true
    | .draw_list_draw _ _ => true
    | _ => false)

/-- The destination rects of the push constants uploaded in a log, in order. -/
def pushed_dst_rects (log : List RDCommand) : List Rect2 :=
  log.filterMap (fun c => match c with
    | .draw_list_set_push_constant _ pc => some pc.dst_rect
    | _ => none)

/-- A target is drawn when its backing texture resolves to a non-null handle. -/
def drawable (env : BlitEnv) (t : BlitToScreen) : Bool :=
  !(env.render_target_get_rd_texture t.render_target).is_null

/-! ### A concrete device and targets for evaluation -/

/-- Sample device answers: screen 0 is ready, 800 by 400 pixels, unrotated; any other
screen is not ready; render target 2 has no backing texture. -/
def sampleBlitEnv : BlitEnv :=
  { screen_prepare_for_drawing := fun screen => if screen = 0 then Error.OK else Error.ERR_CANT_CREATE,
    screen_get_framebuffer_format := fun _ => 7,
    draw_list_begin_for_screen := fun _ => 1,
    screen_get_color_space := fun _ => ColorSpace.COLOR_SPACE_REC709_NONLINEAR_SRGB,
    window_get_hdr_output_reference_luminance := fun _ => 100,
    window_get_hdr_output_linear_luminance_scale := fun _ => 50,
    window_get_output_max_linear_value := fun _ => 1,
    screen_get_width := fun _ => 800,
    screen_get_height := fun _ => 400,
    screen_get_pre_rotation_degrees := fun _ => 0,
    render_target_get_rd_texture := fun rt => if rt = 2 then 0 else rt + 100,
    render_target_is_using_hdr := fun _ => false,
    render_target_is_using_debanding := fun _ => false,
    uniform_set_is_valid := fun _ => true,
    cos_deg := fun d => if d = 0 then 1 else 0,
    sin_deg := fun _ => 0 }

/-- Sample target: the given render target drawn to the rect (100, 50, 200, 100). -/
def sampleTarget (render_target : RID) : BlitToScreen :=
  { render_target := render_target,
    src_rect := ⟨0, 0, 1, 1⟩,
    dst_rect := ⟨100, 50, 200, 100⟩,
    multi_view_use_layer := false, multi_view_layer := 0,
    lens_distortion_apply := false,
    lens_distortion_eye_center_x := 0, lens_distortion_eye_center_y := 0,
    lens_distortion_k1 := 0, lens_distortion_k2 := 0,
    lens_distortion_upscale := 1, lens_distortion_aspect_ratio := 1 }

/-- Sample compositor before its first blit: empty caches, empty device log. -/
def sampleBlitState : BlitState :=
  { blit :=
      { pipelines_by_format := HashMap.empty, index_buffer := 1, array := 2, sampler := 3,
        push_constant :=
          { src_rect := ⟨0, 0, 0, 0⟩, dst_rect := ⟨0, 0, 0, 0⟩, rotation_sin := 0,
            rotation_cos := 0, eye_center_x := 0, eye_center_y := 0, k1 := 0, k2 := 0,
            upscale := 0, aspect_ratio := 0, layer := 0, source_is_srgb := false,
            use_debanding := false,
            target_color_space := ColorSpace.COLOR_SPACE_REC709_NONLINEAR_SRGB,
            reference_multiplier := 0, output_max_value := 0 } },
    render_target_descriptors := HashMap.empty,
    rd_log := [],
    rd_next_rid := 4 }

/-! ## Frame clock -/

/-- A `set_time` call on a renderer, as recorded: the object it is made on and
its arguments. -/
inductive RendererCall where
  | canvas_set_time (canvas : Ptr) (time : ℚ)
  | scene_set_time (scene : ScenePtr) (time : ℚ) (step : ℚ)
  deriving DecidableEq

/-- What the frame clock reads from outside the file. -/
structure FrameEnv where
  /-- `GLOBAL_GET_CACHED(double, "rendering/limits/time/time_rollover_secs")`. -/
  time_rollover_secs : ℚ
  /-- `Math::fmod`. -/
  fmod : ℚ → ℚ → ℚ

/-- The compositor with its frame clock (`frame` is a static `uint64_t`), and the
`set_time` calls made so far. -/
structure FrameState where
  compositor : State
  frame : Nat
  time : ℚ
  delta : ℚ
  renderer_calls : List RendererCall

/-- Record one `set_time` call. -/
def renderer_call (c : RendererCall) (fs : FrameState) : FrameState :=
  { fs with renderer_calls := fs.renderer_calls ++ [c] }

/-- The body of the loop of `begin_frame` over the registered contexts. -/
def begin_frame_context (fs : FrameState) (E : Nat × GPUContext) : FrameState :=
  match E.2.canvas with
  | some canvas => renderer_call (RendererCall.canvas_set_time (some canvas) fs.time) fs
  | none => fs

/-- Tick of the frame clock: `RendererCompositorRD::begin_frame`. The calls are
made on the members `canvas` and `scene` of the compositor and on the canvas of
every entry of `gpu_contexts`. -/
def begin_frame (fenv : FrameEnv) (fs : FrameState) (frame_step : ℚ) : FrameState :=
  let fs := { fs with frame := (fs.frame + 1) % 2 ^ 64 }
  let fs := { fs with delta := frame_step }
  let fs := { fs with time := fs.time + frame_step }
  let time_roll_over := fenv.time_rollover_secs
  let fs := { fs with time := fenv.fmod fs.time time_roll_over }
  let fs := renderer_call (RendererCall.canvas_set_time fs.compositor.canvas fs.time) fs
  let fs := fs.compositor.gpu_contexts.entries.foldl begin_frame_context fs
  renderer_call (RendererCall.scene_set_time fs.compositor.scene fs.time frame_step) fs

/-- The canvas renderers that received `set_time` in a list of calls. -/
def canvas_set_time_targets (calls : List RendererCall) : List Ptr :=
  calls.filterMap (fun c => match c with
    | .canvas_set_time canvas _ => some canvas
    | _ => none)

/-- The scene renderers that received `set_time` in a list of calls. -/
def scene_set_time_targets (calls : List RendererCall) : List ScenePtr :=
  calls.filterMap (fun c => match c with
    | .scene_set_time scene _ _ => some scene
    | _ => none)

/-- The canvases `begin_frame` reaches through the registry: the non-null
`canvas` members of the entries, in iteration order. -/
def registered_canvases (s : State) : List Ptr :=
  s.gpu_contexts.entries.filterMap (fun E => match E.2.canvas with
    | some canvas => some (some canvas)
    | none => none)

/-- Sample frame clock: rollover after 3600 seconds; `fmod x y` is `x` minus `y`
times the quotient `x / y` truncated toward zero. -/
def sampleFrameEnv : FrameEnv :=
  { time_rollover_secs := 3600,
    fmod := fun x y => x - y * ((Int.tdiv (x / y).num (x / y).den : Int) : ℚ) }

/-- A frame state at the first frame around a compositor state. -/
def frameStateOf (s : State) : FrameState :=
  { compositor := s, frame := 1, time := 0, delta := 0, renderer_calls := [] }

/-! ## Teardown -/

/-- What the destructor does, as recorded. -/
inductive TeardownEvent where
  | bind_gpu_context (gpu_index : Nat)
  | memdelete (p : Ptr)
  | unbind_gpu_context
  deriving DecidableEq, Repr

/-- The guarded delete `if (p) memdelete(p)`. -/
def memdelete_if (p : Ptr) (log : List TeardownEvent) : List TeardownEvent :=
  match p with
  | some a => log ++ [TeardownEvent.memdelete (some a)]
  | none => log

/-- The guarded delete of a scene renderer, `if (ctx.scene) memdelete(ctx.scene)`. -/
def memdelete_scene_if (p : ScenePtr) (log : List TeardownEvent) : List TeardownEvent :=
  match p with
  | some sc => log ++ [TeardownEvent.memdelete (some sc.addr)]
  | none => log

/-- The body of the destructor's loop over the registered contexts. -/
def destroy_gpu_context (env : Env) (acc : State × List TeardownEvent)
    (E : Nat × GPUContext) : State × List TeardownEvent :=
  let ctx := E.2
  let s := (bind_gpu_context env acc.1 ctx.gpu_index).2
  let log := acc.2 ++ [TeardownEvent.bind_gpu_context ctx.gpu_index]
  let log := memdelete_scene_if ctx.scene log
  let log := memdelete_if ctx.fog log
  let log := memdelete_if ctx.particles_storage log
  let log := memdelete_if ctx.light_storage log
  let log := memdelete_if ctx.mesh_storage log
  let log := memdelete_if ctx.material_storage log
  let log := memdelete_if ctx.texture_storage log
  let log := memdelete_if ctx.utilities log
  let log := memdelete_if ctx.canvas log
  let log := memdelete_if ctx.framebuffer_cache log
  let log := memdelete_if ctx.uniform_set_cache log
  let s := unbind_gpu_context env s
  (s, log ++ [TeardownEvent.unbind_gpu_context])

/-- Teardown of the compositor: `RendererCompositorRD::~RendererCompositorRD`;
the state it leaves and the record of what it did. -/
def destructor (env : Env) (s : State) : State × List TeardownEvent :=
  let r := s.gpu_contexts.entries.foldl (destroy_gpu_context env) (s, [])
  let s := { r.1 with gpu_contexts := HashMap.empty }
  let log := r.2 ++ [TeardownEvent.memdelete s.uniform_set_cache]
  let log := log ++ [TeardownEvent.memdelete s.framebuffer_cache]
  (s, log)

/-- The objects of a context in the order `ensure_gpu_context` constructs them
(the `memnew` calls of lines 415 to 449). -/
def GPUContext.constructed (ctx : GPUContext) : List Ptr :=
  [ctx.uniform_set_cache, ctx.framebuffer_cache, ctx.utilities, ctx.texture_storage,
    ctx.material_storage, ctx.mesh_storage, ctx.light_storage, ctx.particles_storage,
    ctx.fog, ctx.canvas, ctx.scene.map SceneObj.addr]

/-- The objects deleted in a teardown record, in order. -/
def deleted (log : List TeardownEvent) : List Ptr :=
  log.filterMap (fun e => match e with
    | .memdelete p => some p
    | _ => none)

/-- The objects `finalize` deletes, in order (lines 183 to 191): the sibling
teardown of the primary context. -/
def finalize (s : State) : List TeardownEvent :=
  [TeardownEvent.memdelete (s.scene.map SceneObj.addr), TeardownEvent.memdelete s.canvas,
    TeardownEvent.memdelete s.fog, TeardownEvent.memdelete s.particles_storage,
    TeardownEvent.memdelete s.light_storage, TeardownEvent.memdelete s.mesh_storage,
    TeardownEvent.memdelete s.material_storage, TeardownEvent.memdelete s.texture_storage,
    TeardownEvent.memdelete s.utilities]

/-- The objects of the primary context that `finalize` owns, in the order the
constructor creates them (lines 371 to 394). -/
def State.constructed (s : State) : List Ptr :=
  [s.utilities, s.texture_storage, s.material_storage, s.mesh_storage, s.light_storage,
    s.particles_storage, s.fog, s.canvas, s.scene.map SceneObj.addr]

/-! ### Further samples for evaluation -/

/-- Sample environment: method "forward_plus" on devices that report 32 textures
per shader stage, fewer than the 48 the clustered renderer needs. -/
def forwardPlusLowEnv : Env :=
  { sampleEnv with
    rendering_method := "forward_plus",
    limit_max_textures_per_shader_stage := fun _ => 32 }

/-- Sample target with the given lens-distortion and multi-view flags. -/
def sampleTargetFlags (render_target : RID) (lens_apply use_layer : Bool) : BlitToScreen :=
  { sampleTarget render_target with
    lens_distortion_apply := lens_apply,
    multi_view_use_layer := use_layer }

/-- The pipelines bound in a log, in order. -/
def bound_pipelines (log : List RDCommand) : List RID :=
  log.filterMap (fun c => match c with
    | .draw_list_bind_render_pipeline _ pipeline => some pipeline
    | _ => none)

/-! ## Lemmas on the hash map -/

namespace HashMap

variable {V : Type}

theorem lookup_insertEntries_self (k : Nat) (v : V) (l : List (Nat × V)) :
    (insertEntries k v l).lookup k = some v := by
  induction l with
  | nil => simp [insertEntries, List.lookup]
  | cons hd tl ih =>
    obtain ⟨k', v'⟩ := hd
    by_cases h : k' = k
    · subst h; simp [insertEntries, List.lookup]
    · have h' : (k == k') = false := by simpa using fun e : k = k' => h e.symm
      simp [insertEntries, h, List.lookup, h', ih]

theorem lookup_insertEntries_of_ne (k : Nat) (v : V) (g : Nat) (hg : g ≠ k)
    (l : List (Nat × V)) : (insertEntries k v l).lookup g = l.lookup g := by
  induction l with
  | nil =>
    have h' : (g == k) = false := by simpa using hg
    simp [insertEntries, List.lookup, h']
  | cons hd tl ih =>
    obtain ⟨k', v'⟩ := hd
    by_cases h : k' = k
    · subst h
      have h' : (g == k') = false := by simpa using hg
      simp [insertEntries, List.lookup, h']
    · simp only [insertEntries, h, if_false, List.lookup_cons, ih]

theorem getptr_insert_self (m : HashMap V) (k : Nat) (v : V) :
    (m.insert k v).getptr k = some v :=
  lookup_insertEntries_self k v m.entries

theorem getptr_insert_of_ne (m : HashMap V) (k : Nat) (v : V) (g : Nat) (hg : g ≠ k) :
    (m.insert k v).getptr g = m.getptr g :=
  lookup_insertEntries_of_ne k v g hg m.entries

theorem mem_keys_of_lookup (k : Nat) (v : V) (l : List (Nat × V))
    (h : l.lookup k = some v) : k ∈ l.map Prod.fst := by
  induction l with
  | nil => simp [List.lookup] at h
  | cons hd tl ih =>
    obtain ⟨k', v'⟩ := hd
    by_cases hk : k = k'
    · simp [hk]
    · have h' : (k == k') = false := by simpa using hk
      simp only [List.lookup_cons, h'] at h
      simp [ih h]

theorem count_keys_of_has (m : HashMap V) (k : Nat) (h : m.has k = true) :
    m.keys.count k = 1 := by
  unfold has at h
  obtain ⟨v, hv⟩ := Option.isSome_iff_exists.mp h
  exact List.count_eq_one_of_mem m.keys_nodup (mem_keys_of_lookup k v m.entries hv)

end HashMap

/-! ## Closed forms of the binder operations -/

theorem unbind_gpu_context_eq (env : Env) (s : State) :
    unbind_gpu_context env s =
      { s with
        current := Current.cleared
        rsg :=
          { utilities := s.utilities, texture_storage := s.texture_storage,
            material_storage := s.material_storage, mesh_storage := s.mesh_storage,
            light_storage := s.light_storage, particles_storage := s.particles_storage,
            fog := s.fog, canvas_render := s.canvas,
            gi := match s.scene with
              | some scene => env.get_gi scene
              | none => s.rsg.gi } } := by
  rcases s with ⟨a1, a2, a3, a4, a5, a6, a7, a8, a9, a10, scene, a12, a13, a14, a15⟩
  cases scene <;> rfl

theorem ensure_gpu_context_new (env : Env) (s : State) (i dev : Nat) (hi : i ≠ 0)
    (hnew : s.gpu_contexts.has i = false) :
    ensure_gpu_context env s i (some dev) =
      (Error.OK,
        { s with
          current :=
            { s.current with
              utilities := none, texture_storage := none, material_storage := none,
              mesh_storage := none, light_storage := none, particles_storage := none,
              fog := none, canvas_render := none, scene_render_rd := none,
              uniform_set_cache := none, framebuffer_cache := none }
          heap_next := s.heap_next + 11
          gpu_contexts := s.gpu_contexts.insert i (created_context env s i dev) }) := by
  rcases s with ⟨a1, a2, a3, a4, a5, a6, a7, a8, a9, a10, a11, reg, cur, rsg, hp⟩
  rcases cur with ⟨c1, c2, c3, c4, c5, c6, c7, c8, c9, c10, c11, c12, c13, c14, c15, c16, c17, c18⟩
  unfold ensure_gpu_context
  rw [if_neg hi]
  simp only [hnew]
  by_cases hm : env.rendering_method = "mobile" ∨ env.limit_max_textures_per_shader_stage dev < 48
  · simp only [created_context, if_pos hm]
    rfl
  · simp only [created_context, if_neg hm]
    rfl

/-! ## The binder keeps one context visible when contexts are created from the primary -/

theorem mem_entries_of_lookup {V : Type} (k : Nat) (v : V) (l : List (Nat × V))
    (h : l.lookup k = some v) : (k, v) ∈ l := by
  induction l with
  | nil => simp [List.lookup] at h
  | cons hd tl ih =>
    obtain ⟨k', v'⟩ := hd
    by_cases hk : k = k'
    · subst hk
      simp [List.lookup] at h
      simp [h]
    · have h' : (k == k') = false := by simpa using hk
      simp only [List.lookup_cons, h'] at h
      simp [ih h]

theorem mem_insertEntries_cases {V : Type} (k : Nat) (v : V) (l : List (Nat × V))
    (e : Nat × V) (h : e ∈ HashMap.insertEntries k v l) : e ∈ l ∨ e = (k, v) := by
  induction l with
  | nil => simpa [HashMap.insertEntries] using h
  | cons hd tl ih =>
    obtain ⟨k', v'⟩ := hd
    by_cases hk : k' = k
    · simp only [HashMap.insertEntries, hk, if_true, List.mem_cons] at h
      rcases h with h | h
      · exact Or.inr h
      · exact Or.inl (List.mem_cons_of_mem _ h)
    · simp only [HashMap.insertEntries, hk, if_false, List.mem_cons] at h
      rcases h with h | h
      · exact Or.inl (by simp [h])
      · rcases ih h with h | h
        · exact Or.inl (List.mem_cons_of_mem _ h)
        · exact Or.inr h

theorem unbind_visible (env : Env) (s : State) (hs : s.scene ≠ none) :
    visible (unbind_gpu_context env s) = primary_view env (unbind_gpu_context env s) ∧
    (unbind_gpu_context env s).scene = s.scene ∧
    (unbind_gpu_context env s).gpu_contexts = s.gpu_contexts := by
  rw [unbind_gpu_context_eq]
  rcases s with ⟨a1, a2, a3, a4, a5, a6, a7, a8, a9, a10, scene, a12, a13, a14, a15⟩
  cases scene with
  | none => exact absurd rfl hs
  | some sc => exact ⟨rfl, rfl, rfl⟩

theorem bind_visible (env : Env) (s : State) (i : Nat) (ctx : GPUContext) (hi : i ≠ 0)
    (hget : s.gpu_contexts.getptr i = some ctx) (hc : ctx.complete) :
    visible (bind_gpu_context env s i).2 = context_view env ctx ∧
    (bind_gpu_context env s i).2.scene = s.scene ∧
    (bind_gpu_context env s i).2.gpu_contexts = s.gpu_contexts := by
  rcases ctx with ⟨g, dev, c1, c2, c3, c4, c5, c6, c7, c8, c9, c10, c11⟩
  obtain ⟨h1, h2, h3, h4, h5, h6, h7, h8, h9, h10, h11⟩ := hc
  simp only at h1 h2 h3 h4 h5 h6 h7 h8 h9 h10 h11
  obtain ⟨x1, rfl⟩ := Option.ne_none_iff_exists'.mp h1
  obtain ⟨x2, rfl⟩ := Option.ne_none_iff_exists'.mp h2
  obtain ⟨x3, rfl⟩ := Option.ne_none_iff_exists'.mp h3
  obtain ⟨x4, rfl⟩ := Option.ne_none_iff_exists'.mp h4
  obtain ⟨x5, rfl⟩ := Option.ne_none_iff_exists'.mp h5
  obtain ⟨x6, rfl⟩ := Option.ne_none_iff_exists'.mp h6
  obtain ⟨x7, rfl⟩ := Option.ne_none_iff_exists'.mp h7
  obtain ⟨x8, rfl⟩ := Option.ne_none_iff_exists'.mp h8
  obtain ⟨x9, rfl⟩ := Option.ne_none_iff_exists'.mp h9
  obtain ⟨x10, rfl⟩ := Option.ne_none_iff_exists'.mp h10
  obtain ⟨x11, rfl⟩ := Option.ne_none_iff_exists'.mp h11
  rcases s with ⟨a1, a2, a3, a4, a5, a6, a7, a8, a9, a10, a11, reg, cur, rsg, hp⟩
  rcases cur with ⟨d1, d2, d3, d4, d5, d6, d7, d8, d9, d10, d11, d12, d13, d14, d15, d16, d17,
    d18⟩
  rcases rsg with ⟨r1, r2, r3, r4, r5, r6, r7, r8, r9⟩
  unfold bind_gpu_context
  rw [if_neg hi]
  simp only [hget]
  by_cases hm : env.rendering_method = "forward_plus"
  · simp only [if_pos hm]
    exact ⟨rfl, rfl, rfl⟩
  · simp only [if_neg hm]
    exact ⟨rfl, rfl, rfl⟩

theorem created_context_complete (env : Env) (s : State) (i dev : Nat) :
    (created_context env s i dev).complete := by
  simp [created_context, GPUContext.complete]

theorem ensure_visible (env : Env) (s : State) (i : Nat) (d : Ptr)
    (hwf : well_formed s) (hvis : visible s = primary_view env s) :
    well_formed (ensure_gpu_context env s i d).2 ∧
    visible (ensure_gpu_context env s i d).2 =
      primary_view env (ensure_gpu_context env s i d).2 := by
  by_cases hi : i = 0
  · have e : ensure_gpu_context env s i d = (Error.ERR_INVALID_PARAMETER, s) := by
      simp [ensure_gpu_context, hi]
    rw [e]; exact ⟨hwf, hvis⟩
  · cases d with
    | none =>
      have e : ensure_gpu_context env s i none = (Error.ERR_INVALID_PARAMETER, s) := by
        simp [ensure_gpu_context]
      rw [e]; exact ⟨hwf, hvis⟩
    | some dev =>
      cases hhas : s.gpu_contexts.has i with
      | true =>
        have e : ensure_gpu_context env s i (some dev) = (Error.OK, s) := by
          simp [ensure_gpu_context, hi, hhas]
        rw [e]; exact ⟨hwf, hvis⟩
      | false =>
        rw [ensure_gpu_context_new env s i dev hi hhas]
        refine ⟨⟨hwf.1, ?_⟩, ?_⟩
        · intro e he
          rcases mem_insertEntries_cases _ _ _ e he with h | h
          · exact hwf.2 e h
          · rw [h]; exact created_context_complete env s i dev
        · rcases s with ⟨a1, a2, a3, a4, a5, a6, a7, a8, a9, a10, a11, reg, cur, rsg, hp⟩
          rcases cur with ⟨d1, d2, d3, d4, d5, d6, d7, d8, d9, d10, d11, d12, d13, d14, d15,
            d16, d17, d18⟩
          simp only [visible, primary_view, Visible.mk.injEq] at hvis ⊢
          obtain ⟨v1, v2, v3, v4, v5, v6, v7, v8, v9, v10, v11, v12, v13, v14⟩ := hvis
          exact ⟨v1, rfl, rfl, rfl, rfl, rfl, rfl, rfl, rfl, rfl, v11, rfl, rfl, v14⟩

theorem step_preserves (env : Env) (s : State) (c : Call)
    (hwf : well_formed s) (hvis : one_context_visible env s)
    (hguard : match c with
      | .ensure _ _ => visible s = primary_view env s
      | _ => True) :
    well_formed (step env s c) ∧ one_context_visible env (step env s c) := by
  cases c with
  | ensure i d =>
    obtain ⟨h1, h2⟩ := ensure_visible env s i d hwf hguard
    exact ⟨h1, Or.inl h2⟩
  | unbind =>
    obtain ⟨h1, h2, h3⟩ := unbind_visible env s hwf.1
    refine ⟨⟨?_, ?_⟩, Or.inl h1⟩
    · show (unbind_gpu_context env s).scene ≠ none
      rw [h2]; exact hwf.1
    · show ∀ e ∈ (unbind_gpu_context env s).gpu_contexts.entries, e.2.complete
      rw [h3]; exact hwf.2
  | bind i =>
    show well_formed (bind_gpu_context env s i).2 ∧
      one_context_visible env (bind_gpu_context env s i).2
    by_cases hi : i = 0
    · have e : bind_gpu_context env s i = (true, unbind_gpu_context env s) := by
        simp [bind_gpu_context, hi]
      rw [e]
      obtain ⟨h1, h2, h3⟩ := unbind_visible env s hwf.1
      refine ⟨⟨?_, ?_⟩, Or.inl h1⟩
      · show (unbind_gpu_context env s).scene ≠ none
        rw [h2]; exact hwf.1
      · show ∀ e ∈ (unbind_gpu_context env s).gpu_contexts.entries, e.2.complete
        rw [h3]; exact hwf.2
    · cases hget : s.gpu_contexts.getptr i with
      | none =>
        have e : bind_gpu_context env s i = (false, s) := by
          simp [bind_gpu_context, hi, hget]
        rw [e]; exact ⟨hwf, hvis⟩
      | some ctx =>
        have hmem : (i, ctx) ∈ s.gpu_contexts.entries := mem_entries_of_lookup i ctx _ hget
        obtain ⟨h1, h2, h3⟩ := bind_visible env s i ctx hi hget (hwf.2 _ hmem)
        refine ⟨⟨?_, ?_⟩, Or.inr ⟨(i, ctx), ?_, h1⟩⟩
        · rw [h2]; exact hwf.1
        · rw [h3]; exact hwf.2
        · rw [h3]; exact hmem

/-- In every state reached from a well-formed state showing one context, by calls
among which `ensure_gpu_context` is issued only while the primary context is
the visible one, exactly one context is globally visible. -/
theorem one_context_visible_of_guarded (env : Env) (calls : List Call) (s : State)
    (hwf : well_formed s) (hvis : one_context_visible env s)
    (hguard : ensure_only_from_primary env s calls) :
    well_formed (run env s calls) ∧ one_context_visible env (run env s calls) := by
  induction calls generalizing s with
  | nil => exact ⟨hwf, hvis⟩
  | cons c cs ih =>
    obtain ⟨hc, hrest⟩ := hguard
    obtain ⟨h1, h2⟩ := step_preserves env s c hwf hvis hc
    exact ih (step env s c) h1 h2 hrest

theorem initialState_well_formed (env : Env) (tier : SceneTier) :
    well_formed (initialState env tier) ∧ one_context_visible env (initialState env tier) := by
  refine ⟨⟨by simp [initialState], ?_⟩, Or.inl rfl⟩
  intro e he
  simp [initialState, HashMap.empty] at he

/-! ## Registry and binder: the claims -/

/-- C1: for a non-zero index with no entry in the registry, `bind_gpu_context`
returns false and the state after the call is the state before it: the active
device and every override slot, every optional capability handle, every `RSG::`
global and the registry are unchanged. -/
theorem bind_gpu_context_unregistered (env : Env) (s : State) (p_gpu_index : Nat)
    (hne : p_gpu_index ≠ 0) (habsent : get_gpu_context s p_gpu_index = none) :
    (bind_gpu_context env s p_gpu_index).1 = false ∧
    (bind_gpu_context env s p_gpu_index).2 = s ∧
    (bind_gpu_context env s p_gpu_index).2.current = s.current ∧
    (bind_gpu_context env s p_gpu_index).2.rsg = s.rsg ∧
    (bind_gpu_context env s p_gpu_index).2.gpu_contexts = s.gpu_contexts := by
  unfold get_gpu_context at habsent
  have h : bind_gpu_context env s p_gpu_index = (false, s) := by
    simp [bind_gpu_context, hne, habsent]
  simp [h]

/-- Witness of C1: with context 1 bound, binding the unregistered index 2 fails
and changes nothing. -/
theorem bind_gpu_context_unregistered_witness :
    (2 ≠ 0 ∧ get_gpu_context sampleBound 2 = none) ∧
    (bind_gpu_context sampleEnv sampleBound 2).1 = false ∧
    (bind_gpu_context sampleEnv sampleBound 2).2 = sampleBound :=
  ⟨⟨by decide, by decide⟩,
    (bind_gpu_context_unregistered sampleEnv sampleBound 2 (by decide) (by decide)).1,
    (bind_gpu_context_unregistered sampleEnv sampleBound 2 (by decide) (by decide)).2.1⟩

/-- C2: from every state `bind_gpu_context(0)` returns true and yields exactly the
state of `unbind_gpu_context`: the active-device override and every other
override slot, the optional capability handles among them, are cleared, the
`RSG::` globals are the compositor's own instances (the GI handle that of the
compositor's scene renderer, for a compositor that has one), and the registry
and the compositor's instances are untouched. -/
theorem bind_gpu_context_zero (env : Env) (s : State) :
    bind_gpu_context env s 0 = (true, unbind_gpu_context env s) ∧
    (bind_gpu_context env s 0).2.current = Current.cleared ∧
    (bind_gpu_context env s 0).2.current.device = none ∧
    ((bind_gpu_context env s 0).2.current.forward_id_storage = none ∧
      (bind_gpu_context env s 0).2.current.copy_effects = none ∧
      (bind_gpu_context env s 0).2.current.gi = none ∧
      (bind_gpu_context env s 0).2.current.scene_shader_forward_clustered = none ∧
      (bind_gpu_context env s 0).2.current.ss_effects = none) ∧
    ((bind_gpu_context env s 0).2.rsg.utilities = s.utilities ∧
      (bind_gpu_context env s 0).2.rsg.texture_storage = s.texture_storage ∧
      (bind_gpu_context env s 0).2.rsg.material_storage = s.material_storage ∧
      (bind_gpu_context env s 0).2.rsg.mesh_storage = s.mesh_storage ∧
      (bind_gpu_context env s 0).2.rsg.light_storage = s.light_storage ∧
      (bind_gpu_context env s 0).2.rsg.particles_storage = s.particles_storage ∧
      (bind_gpu_context env s 0).2.rsg.fog = s.fog ∧
      (bind_gpu_context env s 0).2.rsg.canvas_render = s.canvas) ∧
    (∀ scene, s.scene = some scene →
      (bind_gpu_context env s 0).2.rsg.gi = env.get_gi scene) ∧
    (bind_gpu_context env s 0).2.gpu_contexts = s.gpu_contexts := by
  have h : bind_gpu_context env s 0 = (true, unbind_gpu_context env s) := by
    simp [bind_gpu_context]
  rw [h, unbind_gpu_context_eq]
  refine ⟨rfl, rfl, rfl, ⟨rfl, rfl, rfl, rfl, rfl⟩, ⟨rfl, rfl, rfl, rfl, rfl, rfl, rfl, rfl⟩,
    ?_, rfl⟩
  intro scene hs
  simp [hs]

/-- C3: `ensure_gpu_context` with index 0 (any device) and with a null device
(any index) returns `ERR_INVALID_PARAMETER` and the state after the call, the
registry, the active device and all bindings included, is the state before it. -/
theorem ensure_gpu_context_invalid_parameter (env : Env) (s : State) :
    (∀ d : Ptr, ensure_gpu_context env s 0 d = (Error.ERR_INVALID_PARAMETER, s)) ∧
    (∀ i : Nat, ensure_gpu_context env s i none = (Error.ERR_INVALID_PARAMETER, s)) ∧
    (∀ d : Ptr, get_gpu_context_indices (ensure_gpu_context env s 0 d).2 =
      get_gpu_context_indices s) ∧
    (∀ i : Nat, get_gpu_context_indices (ensure_gpu_context env s i none).2 =
      get_gpu_context_indices s) := by
  have h0 : ∀ d : Ptr, ensure_gpu_context env s 0 d = (Error.ERR_INVALID_PARAMETER, s) := by
    intro d; simp [ensure_gpu_context]
  have hn : ∀ i : Nat, ensure_gpu_context env s i none = (Error.ERR_INVALID_PARAMETER, s) := by
    intro i; simp [ensure_gpu_context]
  refine ⟨h0, hn, ?_, ?_⟩
  · intro d; rw [h0]
  · intro i; rw [hn]

/-- C4: `ensure_gpu_context` is idempotent per index. For a non-zero index and
non-null devices the first call returns OK; a second call for the same index,
with any device, returns OK and yields the very state the first call left, so
the registered indices, the bindings and the entry of the index are unchanged;
the registry holds exactly one entry for the index, and when the first call
created it, it is the context built by that call, on the first device. -/
theorem ensure_gpu_context_idempotent (env : Env) (s : State) (i : Nat) (d1 d2 : Ptr)
    (hi : i ≠ 0) (h1 : d1 ≠ none) (h2 : d2 ≠ none) :
    (ensure_gpu_context env s i d1).1 = Error.OK ∧
    ensure_gpu_context env (ensure_gpu_context env s i d1).2 i d2 =
      (Error.OK, (ensure_gpu_context env s i d1).2) ∧
    (get_gpu_context_indices (ensure_gpu_context env s i d1).2).count i = 1 ∧
    get_gpu_context_indices (ensure_gpu_context env (ensure_gpu_context env s i d1).2 i d2).2 =
      get_gpu_context_indices (ensure_gpu_context env s i d1).2 ∧
    get_gpu_context (ensure_gpu_context env (ensure_gpu_context env s i d1).2 i d2).2 i =
      get_gpu_context (ensure_gpu_context env s i d1).2 i ∧
    (∀ dev, d1 = some dev → s.gpu_contexts.has i = false →
      get_gpu_context (ensure_gpu_context env (ensure_gpu_context env s i d1).2 i d2).2 i =
        some (created_context env s i dev)) := by
  obtain ⟨dev1, rfl⟩ := Option.ne_none_iff_exists'.mp h1
  obtain ⟨dev2, rfl⟩ := Option.ne_none_iff_exists'.mp h2
  have key : (ensure_gpu_context env s i (some dev1)).1 = Error.OK ∧
      (ensure_gpu_context env s i (some dev1)).2.gpu_contexts.has i = true ∧
      (s.gpu_contexts.has i = false →
        (ensure_gpu_context env s i (some dev1)).2.gpu_contexts.getptr i =
          some (created_context env s i dev1)) := by
    cases hhas : s.gpu_contexts.has i with
    | true =>
      have e : ensure_gpu_context env s i (some dev1) = (Error.OK, s) := by
        simp [ensure_gpu_context, hi, hhas]
      rw [e]
      exact ⟨rfl, hhas, fun h => by simp at h⟩
    | false =>
      rw [ensure_gpu_context_new env s i dev1 hi hhas]
      refine ⟨rfl, ?_, fun _ => ?_⟩
      · show ((s.gpu_contexts.insert i (created_context env s i dev1)).getptr i).isSome = true
        rw [HashMap.getptr_insert_self]; rfl
      · exact HashMap.getptr_insert_self _ _ _
  obtain ⟨hok, hhas1, hnew⟩ := key
  have second : ensure_gpu_context env (ensure_gpu_context env s i (some dev1)).2 i (some dev2) =
      (Error.OK, (ensure_gpu_context env s i (some dev1)).2) := by
    generalize (ensure_gpu_context env s i (some dev1)).2 = s1 at hhas1
    simp [ensure_gpu_context, hi, hhas1]
  refine ⟨hok, second, HashMap.count_keys_of_has _ _ hhas1, ?_, ?_, ?_⟩
  · rw [second]
  · rw [second]
  · intro dev hdev hfresh
    cases hdev
    rw [second]
    exact hnew hfresh

/-- Witness of C4: registering index 1 on device 50 and then asking again with
device 60 keeps the single context built on device 50. -/
theorem ensure_gpu_context_idempotent_witness :
    (1 ≠ 0 ∧ (some 50 : Ptr) ≠ none ∧ (some 60 : Ptr) ≠ none) ∧
    ensure_gpu_context sampleEnv
        (ensure_gpu_context sampleEnv (initialState sampleEnv SceneTier.RenderForwardMobile)
          1 (some 50)).2 1 (some 60) =
      (Error.OK,
        (ensure_gpu_context sampleEnv (initialState sampleEnv SceneTier.RenderForwardMobile)
          1 (some 50)).2) :=
  ⟨⟨by decide, by decide, by decide⟩,
    (ensure_gpu_context_idempotent sampleEnv
      (initialState sampleEnv SceneTier.RenderForwardMobile) 1 (some 50) (some 60)
      (by decide) (by decide) (by decide)).2.1⟩

/-- C6: whatever its outcome, `ensure_gpu_context` leaves the active device as it
found it: the device slot after the call holds what it held before the call,
so a target device that was not active before is not active afterwards. -/
theorem ensure_gpu_context_restores_device (env : Env) (s : State) (p_gpu_index : Nat)
    (p_device : Ptr) :
    get_current_device (ensure_gpu_context env s p_gpu_index p_device).2 =
      get_current_device s ∧
    (get_current_device s ≠ p_device →
      get_current_device (ensure_gpu_context env s p_gpu_index p_device).2 ≠ p_device) := by
  have h : get_current_device (ensure_gpu_context env s p_gpu_index p_device).2 =
      get_current_device s := by
    unfold ensure_gpu_context
    split
    · rfl
    · split
      · rfl
      · split
        · rfl
        · rfl
  exact ⟨h, fun hne => by rw [h]; exact hne⟩

/-- C5, evaluated on the calls `ensure(1, 50)`, `bind(1)`, `ensure(2, 60)` from the
constructor's state: the active device and the `RSG::` globals are those of
context 1, the subsystem overrides are cleared and resolve to the primary
instances, and no single context, primary or registered, accounts for what is
visible. -/
theorem ensure_while_bound_mixes_contexts :
    (run sampleEnv (initialState sampleEnv SceneTier.RenderForwardMobile)
        [.ensure 1 (some 50), .bind 1, .ensure 2 (some 60)]).current.device = some 50 ∧
    (run sampleEnv (initialState sampleEnv SceneTier.RenderForwardMobile)
        [.ensure 1 (some 50), .bind 1, .ensure 2 (some 60)]).rsg.utilities = some 102 ∧
    (get_gpu_context
        (run sampleEnv (initialState sampleEnv SceneTier.RenderForwardMobile)
          [.ensure 1 (some 50), .bind 1, .ensure 2 (some 60)]) 1).map
        (fun ctx => (ctx.device, ctx.utilities)) = some (some 50, some 102) ∧
    (run sampleEnv (initialState sampleEnv SceneTier.RenderForwardMobile)
        [.ensure 1 (some 50), .bind 1, .ensure 2 (some 60)]).current.utilities = none ∧
    (visible (run sampleEnv (initialState sampleEnv SceneTier.RenderForwardMobile)
        [.ensure 1 (some 50), .bind 1, .ensure 2 (some 60)])).utilities = some 3 ∧
    (initialState sampleEnv SceneTier.RenderForwardMobile).utilities = some 3 ∧
    one_context_visible sampleEnv
      (run sampleEnv (initialState sampleEnv SceneTier.RenderForwardMobile)
        [.ensure 1 (some 50), .bind 1]) ∧
    ¬ one_context_visible sampleEnv
      (run sampleEnv (initialState sampleEnv SceneTier.RenderForwardMobile)
        [.ensure 1 (some 50), .bind 1, .ensure 2 (some 60)]) := by
  refine ⟨by decide, by decide, by decide, by decide, by decide, by decide, by decide, by decide⟩

/-! ## Screen blit: lemmas -/

theorem draw_trace_append (a b : List RDCommand) :
    draw_trace (a ++ b) = draw_trace a ++ draw_trace b := by
  simp [draw_trace]

theorem draw_count_eq_of_trace (log : List RDCommand) :
    draw_count log = draw_count (draw_trace log) := by
  induction log with
  | nil => rfl
  | cons c tl ih =>
    cases c <;> simp_all [draw_count, draw_trace, List.filter_cons, List.countP_cons]

theorem pushed_dst_rects_eq_of_trace (log : List RDCommand) :
    pushed_dst_rects log = pushed_dst_rects (draw_trace log) := by
  induction log with
  | nil => rfl
  | cons c tl ih =>
    cases c <;> simp_all [pushed_dst_rects, draw_trace, List.filter_cons, List.filterMap_cons]

theorem descriptor_for_trace (env : BlitEnv) (rd_texture : RID) (s : BlitState) :
    draw_trace (descriptor_for env rd_texture s).2.rd_log = draw_trace s.rd_log := by
  unfold descriptor_for
  split
  · simp [uniform_set_create, render_target_descriptors_insert, draw_trace]
  · split
    · rfl
    · simp [uniform_set_create, render_target_descriptors_insert, draw_trace]

theorem blit_render_target_trace (env : BlitEnv) (p_screen : Int) (bp : BlitPipelines)
    (dl : DrawListID) (cs : ColorSpace) (rm om : ℚ) (s : BlitState) (t : BlitToScreen) :
    draw_trace (blit_render_target env p_screen bp dl cs rm om s t).rd_log =
      draw_trace s.rd_log ++
        (if drawable env t then
          [RDCommand.draw_list_set_push_constant dl (push_constant_for env p_screen cs rm om t),
            RDCommand.draw_list_draw dl true]
        else []) := by
  unfold blit_render_target drawable
  by_cases h : (env.render_target_get_rd_texture t.render_target).is_null = true
  · simp [h]
  · have hd := descriptor_for_trace env (env.render_target_get_rd_texture t.render_target) s
    unfold draw_trace at hd ⊢
    simp [h, rd_call, set_push_constant, hd]

theorem foldl_blit_render_target_trace (env : BlitEnv) (p_screen : Int) (bp : BlitPipelines)
    (dl : DrawListID) (cs : ColorSpace) (rm om : ℚ) (targets : List BlitToScreen)
    (s : BlitState) :
    draw_trace (targets.foldl (blit_render_target env p_screen bp dl cs rm om) s).rd_log =
      draw_trace s.rd_log ++
        (targets.filter (drawable env)).flatMap (fun t =>
          [RDCommand.draw_list_set_push_constant dl (push_constant_for env p_screen cs rm om t),
            RDCommand.draw_list_draw dl true]) := by
  induction targets generalizing s with
  | nil => simp
  | cons t tl ih =>
    rw [List.foldl_cons, ih, blit_render_target_trace]
    by_cases h : drawable env t = true
    · simp [h, List.filter_cons]
    · simp [h, List.filter_cons]

theorem get_blit_pipelines_miss (s : BlitState) (format : Nat)
    (hmiss : s.blit.pipelines_by_format.getptr format = none) :
    _get_blit_pipelines_for_format s format =
      (⟨s.rd_next_rid, s.rd_next_rid + 1, s.rd_next_rid + 2, s.rd_next_rid + 3⟩,
        { s with
          rd_log := s.rd_log ++
            [RDCommand.render_pipeline_create 0 format false s.rd_next_rid,
              RDCommand.render_pipeline_create 1 format false (s.rd_next_rid + 1),
              RDCommand.render_pipeline_create 2 format false (s.rd_next_rid + 2),
              RDCommand.render_pipeline_create 3 format true (s.rd_next_rid + 3)]
          rd_next_rid := s.rd_next_rid + 4
          blit := { s.blit with
            pipelines_by_format := s.blit.pipelines_by_format.insert format
              ⟨s.rd_next_rid, s.rd_next_rid + 1, s.rd_next_rid + 2, s.rd_next_rid + 3⟩ } }) := by
  unfold _get_blit_pipelines_for_format
  rw [hmiss]
  have hr : List.range BLIT_MODE_MAX = [0, 1, 2, 3] := rfl
  simp [hr, create_blit_pipeline, render_pipeline_create, BlitPipelines.set,
    BlitPipelines.default, pipelines_by_format_insert, BlitMode.toNat]

theorem get_blit_pipelines_hit (s : BlitState) (format : Nat) (v : BlitPipelines)
    (hhit : s.blit.pipelines_by_format.getptr format = some v) :
    _get_blit_pipelines_for_format s format = (v, s) := by
  unfold _get_blit_pipelines_for_format
  rw [hhit]

theorem get_blit_pipelines_trace (s : BlitState) (format : Nat) :
    draw_trace (_get_blit_pipelines_for_format s format).2.rd_log = draw_trace s.rd_log := by
  cases h : s.blit.pipelines_by_format.getptr format with
  | some v => rw [get_blit_pipelines_hit s format v h]
  | none =>
    rw [get_blit_pipelines_miss s format h]
    simp [draw_trace]

/-! ## Screen blit: the claims -/

/-- C7: for every format id and every cache state, a second call of
`_get_blit_pipelines_for_format` returns the same four pipeline handles as the
first and leaves the state the first call left, so it creates no pipeline and
the cache is unchanged; after the first call the cache holds the returned set
for the format, and the entries of all other formats are as they were. -/
theorem get_blit_pipelines_for_format_cached (s : BlitState) (format : Nat) :
    (_get_blit_pipelines_for_format (_get_blit_pipelines_for_format s format).2 format).1 =
      (_get_blit_pipelines_for_format s format).1 ∧
    (_get_blit_pipelines_for_format (_get_blit_pipelines_for_format s format).2 format).2 =
      (_get_blit_pipelines_for_format s format).2 ∧
    pipeline_create_count
        (_get_blit_pipelines_for_format (_get_blit_pipelines_for_format s format).2 format).2.rd_log =
      pipeline_create_count (_get_blit_pipelines_for_format s format).2.rd_log ∧
    (_get_blit_pipelines_for_format s format).2.blit.pipelines_by_format.getptr format =
      some (_get_blit_pipelines_for_format s format).1 ∧
    (∀ g, g ≠ format →
      (_get_blit_pipelines_for_format s format).2.blit.pipelines_by_format.getptr g =
        s.blit.pipelines_by_format.getptr g) := by
  have hcached : (_get_blit_pipelines_for_format s format).2.blit.pipelines_by_format.getptr format =
      some (_get_blit_pipelines_for_format s format).1 := by
    cases h : s.blit.pipelines_by_format.getptr format with
    | some v => rw [get_blit_pipelines_hit s format v h]; exact h
    | none =>
      rw [get_blit_pipelines_miss s format h]
      exact HashMap.getptr_insert_self _ _ _
  have hsecond := get_blit_pipelines_hit _ format _ hcached
  refine ⟨by rw [hsecond], by rw [hsecond], by rw [hsecond], hcached, ?_⟩
  intro g hg
  cases h : s.blit.pipelines_by_format.getptr format with
  | some v => rw [get_blit_pipelines_hit s format v h]
  | none =>
    rw [get_blit_pipelines_miss s format h]
    exact HashMap.getptr_insert_of_ne _ _ _ _ hg

/-- C8: on a screen whose prepare-for-drawing query does not answer OK, for every
list of targets, the only device call is the query itself: no draw call, no
draw list begun, no pipeline created, and the format-to-pipelines cache, the
descriptor cache and the whole `blit` member are unchanged. -/
theorem blit_not_ready_is_noop (env : BlitEnv) (s : BlitState) (p_screen : Int) (targets : List BlitToScreen)
    (hnot_ready : env.screen_prepare_for_drawing p_screen ≠ Error.OK) :
    (blit_render_targets_to_screen env s p_screen targets).rd_log =
      s.rd_log ++ [RDCommand.screen_prepare_for_drawing p_screen] ∧
    draw_count (blit_render_targets_to_screen env s p_screen targets).rd_log =
      draw_count s.rd_log ∧
    draw_list_begin_count (blit_render_targets_to_screen env s p_screen targets).rd_log =
      draw_list_begin_count s.rd_log ∧
    pipeline_create_count (blit_render_targets_to_screen env s p_screen targets).rd_log =
      pipeline_create_count s.rd_log ∧
    (blit_render_targets_to_screen env s p_screen targets).blit.pipelines_by_format =
      s.blit.pipelines_by_format ∧
    (blit_render_targets_to_screen env s p_screen targets).render_target_descriptors =
      s.render_target_descriptors ∧
    (blit_render_targets_to_screen env s p_screen targets).blit = s.blit := by
  have h : blit_render_targets_to_screen env s p_screen targets =
      rd_call (RDCommand.screen_prepare_for_drawing p_screen) s := by
    unfold blit_render_targets_to_screen
    simp [hnot_ready]
  rw [h]
  simp [rd_call, draw_count, draw_list_begin_count, pipeline_create_count]

/-- Witness of C8: screen 1 of the sample device is not ready; blitting three
targets to it records the query and nothing else. -/
theorem blit_not_ready_is_noop_witness :
    sampleBlitEnv.screen_prepare_for_drawing 1 ≠ Error.OK ∧
    (blit_render_targets_to_screen sampleBlitEnv sampleBlitState 1
      [sampleTarget 1, sampleTarget 2, sampleTarget 3]).rd_log =
        sampleBlitState.rd_log ++ [RDCommand.screen_prepare_for_drawing 1] ∧
    draw_count (blit_render_targets_to_screen sampleBlitEnv sampleBlitState 1
      [sampleTarget 1, sampleTarget 2, sampleTarget 3]).rd_log =
        draw_count sampleBlitState.rd_log :=
  ⟨by decide,
    (blit_not_ready_is_noop sampleBlitEnv sampleBlitState 1
      [sampleTarget 1, sampleTarget 2, sampleTarget 3] (by decide)).1,
    (blit_not_ready_is_noop sampleBlitEnv sampleBlitState 1
      [sampleTarget 1, sampleTarget 2, sampleTarget 3] (by decide)).2.1⟩

theorem blit_trace (env : BlitEnv) (s : BlitState) (p_screen : Int)
    (targets : List BlitToScreen)
    (hready : env.screen_prepare_for_drawing p_screen = Error.OK)
    (hvalid : env.draw_list_begin_for_screen p_screen ≠ INVALID_ID) :
    draw_trace (blit_render_targets_to_screen env s p_screen targets).rd_log =
      draw_trace s.rd_log ++
        (targets.filter (drawable env)).flatMap (fun t =>
          [RDCommand.draw_list_set_push_constant (env.draw_list_begin_for_screen p_screen)
              (push_constant_for env p_screen (env.screen_get_color_space p_screen)
                (_compute_reference_multiplier (env.screen_get_color_space p_screen)
                  (env.window_get_hdr_output_reference_luminance p_screen)
                  (env.window_get_hdr_output_linear_luminance_scale p_screen))
                (env.window_get_output_max_linear_value p_screen) t),
            RDCommand.draw_list_draw (env.draw_list_begin_for_screen p_screen) true]) := by
  unfold blit_render_targets_to_screen
  simp only [hready, ne_eq, not_true_eq_false, if_false, hvalid]
  simp only [rd_call, draw_trace_append, foldl_blit_render_target_trace,
    get_blit_pipelines_trace]
  simp [draw_trace]

/-- C9: on a ready screen with a valid draw list, for every list of targets, the
blit adds exactly one indexed draw per target whose backing texture is
non-null, each right after the upload of that target's push constants, in the
order of the list; targets with a null texture add nothing and do not stop
the rest. -/
theorem blit_draws_resolvable_targets_in_order (env : BlitEnv) (s : BlitState) (p_screen : Int)
    (targets : List BlitToScreen)
    (hready : env.screen_prepare_for_drawing p_screen = Error.OK)
    (hvalid : env.draw_list_begin_for_screen p_screen ≠ INVALID_ID) :
    draw_count (blit_render_targets_to_screen env s p_screen targets).rd_log =
      draw_count s.rd_log + (targets.filter (drawable env)).length ∧
    draw_trace (blit_render_targets_to_screen env s p_screen targets).rd_log =
      draw_trace s.rd_log ++
        (targets.filter (drawable env)).flatMap (fun t =>
          [RDCommand.draw_list_set_push_constant (env.draw_list_begin_for_screen p_screen)
              (push_constant_for env p_screen (env.screen_get_color_space p_screen)
                (_compute_reference_multiplier (env.screen_get_color_space p_screen)
                  (env.window_get_hdr_output_reference_luminance p_screen)
                  (env.window_get_hdr_output_linear_luminance_scale p_screen))
                (env.window_get_output_max_linear_value p_screen) t),
            RDCommand.draw_list_draw (env.draw_list_begin_for_screen p_screen) true]) := by
  have ht := blit_trace env s p_screen targets hready hvalid
  refine ⟨?_, ht⟩
  rw [draw_count_eq_of_trace, ht, draw_count_eq_of_trace s.rd_log]
  generalize draw_trace s.rd_log = l0
  unfold draw_count
  rw [List.countP_append]
  congr 1
  induction targets.filter (drawable env) with
  | nil => rfl
  | cons t tl ih => simp [List.flatMap_cons, List.countP_cons, ih]

/-- Witness of C9: three targets, the second with no backing texture, give
exactly two draws. -/
theorem blit_draws_resolvable_targets_in_order_witness :
    (sampleBlitEnv.screen_prepare_for_drawing 0 = Error.OK ∧
      sampleBlitEnv.draw_list_begin_for_screen 0 ≠ INVALID_ID) ∧
    draw_count (blit_render_targets_to_screen sampleBlitEnv sampleBlitState 0
      [sampleTarget 1, sampleTarget 2, sampleTarget 3]).rd_log = 2 :=
  ⟨⟨by decide, by decide⟩,
    (blit_draws_resolvable_targets_in_order sampleBlitEnv sampleBlitState 0 [sampleTarget 1, sampleTarget 2, sampleTarget 3]
      (by decide) (by decide)).1.trans (by decide)⟩

theorem normalization_size_eq (env : BlitEnv) (p_screen : Int)
    (hrot : env.screen_get_pre_rotation_degrees p_screen = 0 ∨
      env.screen_get_pre_rotation_degrees p_screen = 90 ∨
      env.screen_get_pre_rotation_degrees p_screen = 180 ∨
      env.screen_get_pre_rotation_degrees p_screen = 270) :
    normalization_size env p_screen =
      if env.screen_get_pre_rotation_degrees p_screen = 90 ∨
          env.screen_get_pre_rotation_degrees p_screen = 270 then
        ((env.screen_get_height p_screen : ℚ), (env.screen_get_width p_screen : ℚ))
      else
        ((env.screen_get_width p_screen : ℚ), (env.screen_get_height p_screen : ℚ)) := by
  have e0 : Int.tmod (-(0 : Int)) 180 = 0 := by decide
  have e90 : Int.tmod (-(90 : Int)) 180 ≠ 0 := by decide
  have e180 : Int.tmod (-(180 : Int)) 180 = 0 := by decide
  have e270 : Int.tmod (-(270 : Int)) 180 ≠ 0 := by decide
  unfold normalization_size
  rcases hrot with h | h | h | h
  · rw [h, if_neg (by simp), if_neg (by decide)]
  · rw [h, if_pos e90, if_pos (by decide)]
  · rw [h, if_neg (by simp), if_neg (by decide)]
  · rw [h, if_pos e270, if_pos (by decide)]

/-- C10: on a ready screen with a valid draw list and pre-rotation 0, 90, 180 or
270 degrees, the destination rects pushed for the drawn targets are, in order,
(x/W', y/H', w/W', h/H') with (W', H') the screen's (height, width) for 90 and
270 degrees and its (width, height) for 0 and 180 degrees, in exact rational
arithmetic. -/
theorem blit_dst_rect_normalized (env : BlitEnv) (s : BlitState) (p_screen : Int)
    (targets : List BlitToScreen)
    (hready : env.screen_prepare_for_drawing p_screen = Error.OK)
    (hvalid : env.draw_list_begin_for_screen p_screen ≠ INVALID_ID)
    (hrot : env.screen_get_pre_rotation_degrees p_screen = 0 ∨
      env.screen_get_pre_rotation_degrees p_screen = 90 ∨
      env.screen_get_pre_rotation_degrees p_screen = 180 ∨
      env.screen_get_pre_rotation_degrees p_screen = 270) :
    pushed_dst_rects (blit_render_targets_to_screen env s p_screen targets).rd_log =
      pushed_dst_rects s.rd_log ++
        (targets.filter (drawable env)).map (fun t =>
          if env.screen_get_pre_rotation_degrees p_screen = 90 ∨
              env.screen_get_pre_rotation_degrees p_screen = 270 then
            { x := t.dst_rect.x / (env.screen_get_height p_screen : ℚ),
              y := t.dst_rect.y / (env.screen_get_width p_screen : ℚ),
              width := t.dst_rect.width / (env.screen_get_height p_screen : ℚ),
              height := t.dst_rect.height / (env.screen_get_width p_screen : ℚ) }
          else
            { x := t.dst_rect.x / (env.screen_get_width p_screen : ℚ),
              y := t.dst_rect.y / (env.screen_get_height p_screen : ℚ),
              width := t.dst_rect.width / (env.screen_get_width p_screen : ℚ),
              height := t.dst_rect.height / (env.screen_get_height p_screen : ℚ) }) := by
  have ht := blit_trace env s p_screen targets hready hvalid
  rw [pushed_dst_rects_eq_of_trace, ht, pushed_dst_rects_eq_of_trace s.rd_log]
  generalize draw_trace s.rd_log = l0
  unfold pushed_dst_rects
  rw [List.filterMap_append]
  congr 1
  induction targets.filter (drawable env) with
  | nil => rfl
  | cons t tl ih =>
    simp only [List.flatMap_cons, List.cons_append, List.nil_append, List.filterMap_cons,
      List.map_cons, ih]
    congr 1
    simp only [push_constant_for, normalization_size_eq env p_screen hrot]
    split <;> rfl

/-- Witness of C10: the rect (100, 50, 200, 100) on the unrotated 800 by 400 screen
is pushed as (0.125, 0.125, 0.25, 0.25). -/
theorem blit_dst_rect_normalized_witness :
    (sampleBlitEnv.screen_prepare_for_drawing 0 = Error.OK ∧
      sampleBlitEnv.draw_list_begin_for_screen 0 ≠ INVALID_ID ∧
      (sampleBlitEnv.screen_get_pre_rotation_degrees 0 = 0 ∨
        sampleBlitEnv.screen_get_pre_rotation_degrees 0 = 90 ∨
        sampleBlitEnv.screen_get_pre_rotation_degrees 0 = 180 ∨
        sampleBlitEnv.screen_get_pre_rotation_degrees 0 = 270)) ∧
    pushed_dst_rects (blit_render_targets_to_screen sampleBlitEnv sampleBlitState 0
      [sampleTarget 1]).rd_log = [⟨0.125, 0.125, 0.25, 0.25⟩] :=
  ⟨⟨by decide, by decide, by decide⟩,
    (blit_dst_rect_normalized sampleBlitEnv sampleBlitState 0 [sampleTarget 1]
      (by decide) (by decide) (by decide)).trans
      (by simp [sampleBlitEnv, sampleBlitState, sampleTarget, drawable, RID.is_null,
            pushed_dst_rects]
          norm_num)⟩

/-! ## Reference multiplier and blit mode: the claims -/

/-- C11: `_compute_reference_multiplier` is the reference luminance divided by the
linear luminance scale for the REC709-linear color space (100 and 50 give 2),
and 1 for every other color space whatever the two luminance inputs are, a zero
scale included. -/
theorem compute_reference_multiplier_spec :
    (∀ reference_luminance linear_luminance_scale : ℚ,
      _compute_reference_multiplier ColorSpace.COLOR_SPACE_REC709_LINEAR
        reference_luminance linear_luminance_scale =
          reference_luminance / linear_luminance_scale) ∧
    _compute_reference_multiplier ColorSpace.COLOR_SPACE_REC709_LINEAR 100 50 = 2 ∧
    (∀ (color_space : ColorSpace) (reference_luminance linear_luminance_scale : ℚ),
      color_space ≠ ColorSpace.COLOR_SPACE_REC709_LINEAR →
        _compute_reference_multiplier color_space reference_luminance
          linear_luminance_scale = 1) ∧
    (∀ (color_space : ColorSpace) (reference_luminance : ℚ),
      color_space ≠ ColorSpace.COLOR_SPACE_REC709_LINEAR →
        _compute_reference_multiplier color_space reference_luminance 0 = 1) := by
  have hother : ∀ (color_space : ColorSpace) (reference_luminance linear_luminance_scale : ℚ),
      color_space ≠ ColorSpace.COLOR_SPACE_REC709_LINEAR →
        _compute_reference_multiplier color_space reference_luminance
          linear_luminance_scale = 1 := by
    intro cs r l hcs
    cases cs with
    | COLOR_SPACE_REC709_LINEAR => exact absurd rfl hcs
    | COLOR_SPACE_REC709_NONLINEAR_SRGB => rfl
    | other n => rfl
  refine ⟨fun _ _ => rfl, ?_, hother, fun cs r h => hother cs r 0 h⟩
  show (100 : ℚ) / 50 = 2
  norm_num

theorem bound_pipelines_append (a b : List RDCommand) :
    bound_pipelines (a ++ b) = bound_pipelines a ++ bound_pipelines b := by
  simp [bound_pipelines]

theorem descriptor_for_bound_pipelines (env : BlitEnv) (rd_texture : RID) (s : BlitState) :
    bound_pipelines (descriptor_for env rd_texture s).2.rd_log = bound_pipelines s.rd_log := by
  unfold descriptor_for
  split
  · simp [uniform_set_create, render_target_descriptors_insert, bound_pipelines]
  · split
    · rfl
    · simp [uniform_set_create, render_target_descriptors_insert, bound_pipelines]

theorem blit_render_target_bound_pipelines (env : BlitEnv) (p_screen : Int)
    (bp : BlitPipelines) (dl : DrawListID) (cs : ColorSpace) (rm om : ℚ) (s : BlitState)
    (t : BlitToScreen) :
    bound_pipelines (blit_render_target env p_screen bp dl cs rm om s t).rd_log =
      bound_pipelines s.rd_log ++
        (if drawable env t then [bp.get (blit_mode t).toNat] else []) := by
  unfold blit_render_target drawable
  by_cases h : (env.render_target_get_rd_texture t.render_target).is_null = true
  · simp [h]
  · have hd := descriptor_for_bound_pipelines env
      (env.render_target_get_rd_texture t.render_target) s
    unfold bound_pipelines at hd ⊢
    simp [h, rd_call, set_push_constant, hd]

theorem foldl_blit_render_target_bound_pipelines (env : BlitEnv) (p_screen : Int)
    (bp : BlitPipelines) (dl : DrawListID) (cs : ColorSpace) (rm om : ℚ)
    (targets : List BlitToScreen) (s : BlitState) :
    bound_pipelines (targets.foldl (blit_render_target env p_screen bp dl cs rm om) s).rd_log =
      bound_pipelines s.rd_log ++
        (targets.filter (drawable env)).map (fun t => bp.get (blit_mode t).toNat) := by
  induction targets generalizing s with
  | nil => simp
  | cons t tl ih =>
    rw [List.foldl_cons, ih, blit_render_target_bound_pipelines]
    by_cases h : drawable env t = true
    · simp [h, List.filter_cons]
    · simp [h, List.filter_cons]

theorem get_blit_pipelines_bound_pipelines (s : BlitState) (format : Nat) :
    bound_pipelines (_get_blit_pipelines_for_format s format).2.rd_log =
      bound_pipelines s.rd_log := by
  cases h : s.blit.pipelines_by_format.getptr format with
  | some v => rw [get_blit_pipelines_hit s format v h]
  | none =>
    rw [get_blit_pipelines_miss s format h]
    simp [bound_pipelines]

/-- C12: on a ready screen with a valid draw list, the pipelines bound for the
drawn targets are, in order, the entries of the format's pipeline set at the
mode of each target; that mode is the lens-distortion mode whenever the lens
flag is set, whatever the multi-view flag, the multi-view-layer mode when the
lens flag is off and the layer flag set, the normal mode when both are off,
and never the alpha-blend mode. -/
theorem blit_binds_pipeline_by_flags (env : BlitEnv) (s : BlitState) (p_screen : Int)
    (targets : List BlitToScreen)
    (hready : env.screen_prepare_for_drawing p_screen = Error.OK)
    (hvalid : env.draw_list_begin_for_screen p_screen ≠ INVALID_ID) :
    bound_pipelines (blit_render_targets_to_screen env s p_screen targets).rd_log =
      bound_pipelines s.rd_log ++
        (targets.filter (drawable env)).map (fun t =>
          (_get_blit_pipelines_for_format
            (rd_call (RDCommand.screen_prepare_for_drawing p_screen) s)
            (env.screen_get_framebuffer_format p_screen)).1.get (blit_mode t).toNat) ∧
    (∀ t : BlitToScreen,
      (t.lens_distortion_apply = true → blit_mode t = BlitMode.BLIT_MODE_LENS) ∧
      (t.lens_distortion_apply = false → t.multi_view_use_layer = true →
        blit_mode t = BlitMode.BLIT_MODE_USE_LAYER) ∧
      (t.lens_distortion_apply = false → t.multi_view_use_layer = false →
        blit_mode t = BlitMode.BLIT_MODE_NORMAL) ∧
      blit_mode t ≠ BlitMode.BLIT_MODE_NORMAL_ALPHA) := by
  constructor
  · unfold blit_render_targets_to_screen
    simp only [hready, ne_eq, not_true_eq_false, if_false, hvalid]
    simp only [rd_call, bound_pipelines_append, foldl_blit_render_target_bound_pipelines,
      get_blit_pipelines_bound_pipelines]
    simp [bound_pipelines]
  · intro t
    unfold blit_mode
    cases t.lens_distortion_apply <;> cases t.multi_view_use_layer <;> simp

/-- Witness of C12: on the sample screen, whose pipelines for modes 0 to 3 are the
handles 4 to 7, a lens-and-layer target, a layer target, a plain target and a
lens target bind the handles 6, 5, 4, 6. -/
theorem blit_binds_pipeline_by_flags_witness :
    (sampleBlitEnv.screen_prepare_for_drawing 0 = Error.OK ∧
      sampleBlitEnv.draw_list_begin_for_screen 0 ≠ INVALID_ID) ∧
    bound_pipelines (blit_render_targets_to_screen sampleBlitEnv sampleBlitState 0
      [sampleTargetFlags 1 true true, sampleTargetFlags 3 false true,
        sampleTargetFlags 4 false false, sampleTargetFlags 5 true false]).rd_log =
      [6, 5, 4, 6] :=
  ⟨⟨by decide, by decide⟩,
    (blit_binds_pipeline_by_flags sampleBlitEnv sampleBlitState 0
      [sampleTargetFlags 1 true true, sampleTargetFlags 3 false true,
        sampleTargetFlags 4 false false, sampleTargetFlags 5 true false]
      (by decide) (by decide)).1.trans (by decide)⟩

/-! ## Frame clock: the claim -/

theorem foldl_begin_frame_context (entries : List (Nat × GPUContext)) (fs : FrameState) :
    (entries.foldl begin_frame_context fs).renderer_calls =
      fs.renderer_calls ++
        (entries.filterMap (fun E => match E.2.canvas with
          | some canvas => some (some canvas)
          | none => none)).map (fun c => RendererCall.canvas_set_time c fs.time) ∧
    (entries.foldl begin_frame_context fs).time = fs.time ∧
    (entries.foldl begin_frame_context fs).compositor = fs.compositor ∧
    (entries.foldl begin_frame_context fs).frame = fs.frame := by
  induction entries generalizing fs with
  | nil => simp
  | cons E tl ih =>
    obtain ⟨k, ctx⟩ := E
    rw [List.foldl_cons]
    obtain ⟨h1, h2, h3, h4⟩ := ih (begin_frame_context fs (k, ctx))
    rw [h1, h2, h3, h4]
    cases hc : ctx.canvas with
    | none => simp [begin_frame_context, hc]
    | some c => simp [begin_frame_context, hc, renderer_call]

theorem begin_frame_calls (fenv : FrameEnv) (fs : FrameState) (frame_step : ℚ) :
    (begin_frame fenv fs frame_step).renderer_calls =
      fs.renderer_calls ++
        [RendererCall.canvas_set_time fs.compositor.canvas
          (fenv.fmod (fs.time + frame_step) fenv.time_rollover_secs)] ++
        (registered_canvases fs.compositor).map (fun c =>
          RendererCall.canvas_set_time c
            (fenv.fmod (fs.time + frame_step) fenv.time_rollover_secs)) ++
        [RendererCall.scene_set_time fs.compositor.scene
          (fenv.fmod (fs.time + frame_step) fenv.time_rollover_secs) frame_step] := by
  unfold begin_frame
  simp only [renderer_call]
  obtain ⟨h1, h2, h3, _⟩ := foldl_begin_frame_context fs.compositor.gpu_contexts.entries
    { compositor := fs.compositor, frame := (fs.frame + 1) % 2 ^ 64,
      time := fenv.fmod (fs.time + frame_step) fenv.time_rollover_secs,
      delta := frame_step,
      renderer_calls := fs.renderer_calls ++
        [RendererCall.canvas_set_time fs.compositor.canvas
          (fenv.fmod (fs.time + frame_step) fenv.time_rollover_secs)] }
  simp only [h1, h2, h3]
  rfl

/-- C13, as the code has it: `begin_frame` calls `set_time` with the wrapped time
on the compositor's own canvas renderer and on the canvas renderer of every
registered context that has one, whichever context is bound, and on the
compositor's own scene renderer with the wrapped time and the step; no other
canvas renderer receives a call. -/
theorem begin_frame_set_time_targets (fenv : FrameEnv) (fs : FrameState) (frame_step : ℚ) :
    canvas_set_time_targets (begin_frame fenv fs frame_step).renderer_calls =
      canvas_set_time_targets fs.renderer_calls ++
        (fs.compositor.canvas :: registered_canvases fs.compositor) ∧
    RendererCall.canvas_set_time fs.compositor.canvas
        (fenv.fmod (fs.time + frame_step) fenv.time_rollover_secs) ∈
      (begin_frame fenv fs frame_step).renderer_calls ∧
    (∀ E ∈ fs.compositor.gpu_contexts.entries, ∀ canvas, E.2.canvas = some canvas →
      RendererCall.canvas_set_time (some canvas)
          (fenv.fmod (fs.time + frame_step) fenv.time_rollover_secs) ∈
        (begin_frame fenv fs frame_step).renderer_calls) ∧
    RendererCall.scene_set_time fs.compositor.scene
        (fenv.fmod (fs.time + frame_step) fenv.time_rollover_secs) frame_step ∈
      (begin_frame fenv fs frame_step).renderer_calls ∧
    (begin_frame fenv fs frame_step).time =
      fenv.fmod (fs.time + frame_step) fenv.time_rollover_secs ∧
    (begin_frame fenv fs frame_step).frame = (fs.frame + 1) % 2 ^ 64 ∧
    (begin_frame fenv fs frame_step).compositor = fs.compositor := by
  have hcalls := begin_frame_calls fenv fs frame_step
  obtain ⟨_, h2, h3, h4⟩ := foldl_begin_frame_context fs.compositor.gpu_contexts.entries
    { compositor := fs.compositor, frame := (fs.frame + 1) % 2 ^ 64,
      time := fenv.fmod (fs.time + frame_step) fenv.time_rollover_secs,
      delta := frame_step,
      renderer_calls := fs.renderer_calls ++
        [RendererCall.canvas_set_time fs.compositor.canvas
          (fenv.fmod (fs.time + frame_step) fenv.time_rollover_secs)] }
  refine ⟨?_, ?_, ?_, ?_, h2, h4, h3⟩
  · rw [hcalls]
    simp [canvas_set_time_targets, List.filterMap_append, List.filterMap_map,
      Function.comp_def]
  · rw [hcalls]; simp
  · intro E hE canvas hc
    rw [hcalls]
    have hmem : (some canvas : Ptr) ∈ registered_canvases fs.compositor := by
      unfold registered_canvases
      rw [List.mem_filterMap]
      exact ⟨E, hE, by simp [hc]⟩
    simp only [List.mem_append, List.mem_map, List.mem_singleton]
    exact Or.inl (Or.inr ⟨some canvas, hmem, rfl⟩)
  · rw [hcalls]; simp

/-- C13 fails as stated. With context 1 registered and no context bound (the
primary is visible), `begin_frame` calls `set_time` on the canvas renderer of
context 1; with context 1 bound, it calls `set_time` on the canvas and scene
renderers of the primary context, and the only scene renderer called is the
primary one, not that of the bound context. -/
theorem begin_frame_reaches_unbound_contexts :
    (sampleRegistered.current = Current.cleared ∧
      visible sampleRegistered = primary_view sampleEnv sampleRegistered ∧
      (get_gpu_context sampleRegistered 1).map (fun ctx => ctx.canvas) = some (some 109) ∧
      canvas_set_time_targets
        (begin_frame sampleFrameEnv (frameStateOf sampleRegistered) (1 / 60)).renderer_calls =
          [some 10, some 109]) ∧
    (get_gpu_context sampleBound 1 = some (created_context sampleEnv
        (initialState sampleEnv SceneTier.RenderForwardMobile) 1 50) ∧
      visible sampleBound = context_view sampleEnv (created_context sampleEnv
        (initialState sampleEnv SceneTier.RenderForwardMobile) 1 50) ∧
      (created_context sampleEnv
        (initialState sampleEnv SceneTier.RenderForwardMobile) 1 50).scene =
          some ⟨110, SceneTier.RenderForwardMobile⟩ ∧
      sampleBound.canvas = some 10 ∧
      sampleBound.scene = some ⟨11, SceneTier.RenderForwardMobile⟩ ∧
      canvas_set_time_targets
        (begin_frame sampleFrameEnv (frameStateOf sampleBound) (1 / 60)).renderer_calls =
          [some 10, some 109] ∧
      scene_set_time_targets
        (begin_frame sampleFrameEnv (frameStateOf sampleBound) (1 / 60)).renderer_calls =
          [some ⟨11, SceneTier.RenderForwardMobile⟩]) := by
  refine ⟨⟨by decide, by decide, by decide, ?_⟩,
    ⟨by decide, by decide, by decide, by decide, by decide, ?_, ?_⟩⟩
  · rw [begin_frame_calls]
    decide
  · rw [begin_frame_calls]
    decide
  · rw [begin_frame_calls]
    decide

/-! ## Clustered-tier handles on bind: the claim -/

theorem bind_gpu_context_forward_plus (env : Env) (s : State) (i : Nat) (ctx : GPUContext)
    (hi : i ≠ 0) (hget : s.gpu_contexts.getptr i = some ctx)
    (hm : env.rendering_method = "forward_plus") :
    (bind_gpu_context env s i).1 = true ∧
    (bind_gpu_context env s i).2.current.scene_shader_forward_clustered =
      env.get_scene_shader ctx.scene ∧
    (bind_gpu_context env s i).2.current.ss_effects = env.get_ss_effects ctx.scene := by
  rcases s with ⟨a1, a2, a3, a4, a5, a6, a7, a8, a9, a10, a11, reg, cur, rsg, hp⟩
  rcases cur with ⟨d1, d2, d3, d4, d5, d6, d7, d8, d9, d10, d11, d12, d13, d14, d15, d16, d17,
    d18⟩
  rcases rsg with ⟨r1, r2, r3, r4, r5, r6, r7, r8, r9⟩
  rcases ctx with ⟨g, dev, c1, c2, c3, c4, c5, c6, c7, c8, c9, c10, c11⟩
  unfold bind_gpu_context
  rw [if_neg hi]
  simp only [hget, if_pos hm]
  cases c11 <;> refine ⟨?_, ?_, ?_⟩ <;> trivial

/-- C14, evaluated: under method "forward_plus" on a device with 32 textures per
stage, `ensure_gpu_context(1, 50)` creates a mobile-tier scene renderer, and
the following `bind_gpu_context(1)` succeeds and repoints the clustered
scene-shader singleton and the screen-space-effects helper, both null before,
to what the accessors of the clustered class return on that mobile object. -/
theorem bind_treats_mobile_scene_as_clustered :
    forwardPlusLowEnv.rendering_method = "forward_plus" ∧
    forwardPlusLowEnv.limit_max_textures_per_shader_stage 50 < 48 ∧
    (get_gpu_context
        (run forwardPlusLowEnv (initialState forwardPlusLowEnv SceneTier.RenderForwardMobile)
          [.ensure 1 (some 50)]) 1).map (fun ctx => ctx.scene) =
      some (some ⟨110, SceneTier.RenderForwardMobile⟩) ∧
    (run forwardPlusLowEnv (initialState forwardPlusLowEnv SceneTier.RenderForwardMobile)
      [.ensure 1 (some 50)]).current.scene_shader_forward_clustered = none ∧
    (run forwardPlusLowEnv (initialState forwardPlusLowEnv SceneTier.RenderForwardMobile)
      [.ensure 1 (some 50)]).current.ss_effects = none ∧
    (bind_gpu_context forwardPlusLowEnv
      (run forwardPlusLowEnv (initialState forwardPlusLowEnv SceneTier.RenderForwardMobile)
        [.ensure 1 (some 50)]) 1).1 = true ∧
    (bind_gpu_context forwardPlusLowEnv
      (run forwardPlusLowEnv (initialState forwardPlusLowEnv SceneTier.RenderForwardMobile)
        [.ensure 1 (some 50)]) 1).2.current.scene_shader_forward_clustered =
      forwardPlusLowEnv.get_scene_shader (some ⟨110, SceneTier.RenderForwardMobile⟩) ∧
    (bind_gpu_context forwardPlusLowEnv
      (run forwardPlusLowEnv (initialState forwardPlusLowEnv SceneTier.RenderForwardMobile)
        [.ensure 1 (some 50)]) 1).2.current.scene_shader_forward_clustered = some 4110 ∧
    (bind_gpu_context forwardPlusLowEnv
      (run forwardPlusLowEnv (initialState forwardPlusLowEnv SceneTier.RenderForwardMobile)
        [.ensure 1 (some 50)]) 1).2.current.ss_effects = some 5110 := by
  refine ⟨by decide, by decide, by decide, by decide, by decide, by decide, by decide,
    by decide, by decide⟩

/-! ## Teardown order: the claim -/

theorem created_context_constructed (env : Env) (s : State) (i dev : Nat) :
    (created_context env s i dev).constructed =
      (List.range 11).map (fun k => some (s.heap_next + k)) := by
  have hr : List.range 11 = [0, 1, 2, 3, 4, 5, 6, 7, 8, 9, 10] := rfl
  simp [hr, GPUContext.constructed, created_context]

theorem destroy_gpu_context_deleted (env : Env) (s : State) (log : List TeardownEvent)
    (E : Nat × GPUContext) (hc : E.2.complete) :
    (destroy_gpu_context env (s, log) E).2 =
      log ++ [TeardownEvent.bind_gpu_context E.2.gpu_index] ++
        [E.2.scene.map SceneObj.addr, E.2.fog, E.2.particles_storage, E.2.light_storage,
          E.2.mesh_storage, E.2.material_storage, E.2.texture_storage, E.2.utilities,
          E.2.canvas, E.2.framebuffer_cache, E.2.uniform_set_cache].map
            TeardownEvent.memdelete ++
        [TeardownEvent.unbind_gpu_context] := by
  obtain ⟨k, ctx⟩ := E
  rcases ctx with ⟨g, dev, c1, c2, c3, c4, c5, c6, c7, c8, c9, c10, c11⟩
  obtain ⟨h1, h2, h3, h4, h5, h6, h7, h8, h9, h10, h11⟩ := hc
  simp only at h1 h2 h3 h4 h5 h6 h7 h8 h9 h10 h11
  obtain ⟨x1, rfl⟩ := Option.ne_none_iff_exists'.mp h1
  obtain ⟨x2, rfl⟩ := Option.ne_none_iff_exists'.mp h2
  obtain ⟨x3, rfl⟩ := Option.ne_none_iff_exists'.mp h3
  obtain ⟨x4, rfl⟩ := Option.ne_none_iff_exists'.mp h4
  obtain ⟨x5, rfl⟩ := Option.ne_none_iff_exists'.mp h5
  obtain ⟨x6, rfl⟩ := Option.ne_none_iff_exists'.mp h6
  obtain ⟨x7, rfl⟩ := Option.ne_none_iff_exists'.mp h7
  obtain ⟨x8, rfl⟩ := Option.ne_none_iff_exists'.mp h8
  obtain ⟨x9, rfl⟩ := Option.ne_none_iff_exists'.mp h9
  obtain ⟨x10, rfl⟩ := Option.ne_none_iff_exists'.mp h10
  obtain ⟨x11, rfl⟩ := Option.ne_none_iff_exists'.mp h11
  simp [destroy_gpu_context, memdelete_if, memdelete_scene_if]

theorem finalize_is_reverse_of_construction (s : State) :
    deleted (finalize s) = s.constructed.reverse := rfl

/-- C15, evaluated on the compositor with context 1 registered: the context is
bound first and unbound last, but its objects, constructed at addresses 100 to
110 in that order, are deleted in the order 110, 108, 107, 106, 105, 104, 103,
102, 109, 101, 100: the canvas renderer (109) goes after utilities (102)
instead of right after the scene renderer, so the order is not the reverse of
construction. -/
theorem destructor_order_is_not_reverse_of_construction :
    sampleRegistered.gpu_contexts.entries.map (fun E => E.2.constructed) =
      [[some 100, some 101, some 102, some 103, some 104, some 105, some 106, some 107,
        some 108, some 109, some 110]] ∧
    (destructor sampleEnv sampleRegistered).2 =
      [TeardownEvent.bind_gpu_context 1,
        TeardownEvent.memdelete (some 110), TeardownEvent.memdelete (some 108),
        TeardownEvent.memdelete (some 107), TeardownEvent.memdelete (some 106),
        TeardownEvent.memdelete (some 105), TeardownEvent.memdelete (some 104),
        TeardownEvent.memdelete (some 103), TeardownEvent.memdelete (some 102),
        TeardownEvent.memdelete (some 109), TeardownEvent.memdelete (some 101),
        TeardownEvent.memdelete (some 100),
        TeardownEvent.unbind_gpu_context,
        TeardownEvent.memdelete (some 1), TeardownEvent.memdelete (some 2)] ∧
    sampleRegistered.gpu_contexts.entries.map
        (fun E => deleted (destroy_gpu_context sampleEnv (sampleRegistered, []) E).2) ≠
      sampleRegistered.gpu_contexts.entries.map (fun E => E.2.constructed.reverse) := by
  refine ⟨by decide, by decide, by decide⟩

end RendererCompositorRD
